import Mathlib

/-!
# btspk_control.c: pairing and key-lifecycle controller

A shallow embedding of `src/audio/btspeaker/btspk_control.c`.

* The file-scoped variable `local_irk_info` is threaded explicitly through
  every function that reads or writes it.
* Functions of other modules (NVRAM HAL, Fast Pair provider, headset/speaker
  library, stack) are collaborators.  What they answer during one invocation
  is supplied by an `Env`; each invocation is recorded as a `Call`, in program
  order.
* Constants that come from headers outside the sources are the fields of
  `Platform`; nothing is assumed about their values unless a theorem says so.
* `WICED_BT_TRACE` output is diagnostic only and is not part of the model.
* Byte buffers are lists of bytes; `memcmp` and `memcpy` act on the first
  `n` bytes as in C.
-/

namespace Btspk

/-! ## Header constants and build switches -/

/-- Constants and preprocessor switches that `btspk_control.c` takes from
headers which are not among the sources.  They are parameters of the model.
`BTM_AUTH_SINGLE_PROFILE_NO` ("no bonding") is not used by the code; it is here
so that statements can name it. -/
structure Platform where
  WICED_BT_SUCCESS : Nat
  WICED_BT_ERROR : Nat
  WICED_BT_NO_RESOURCES : Nat
  WICED_BT_USE_DEFAULT_SECURITY : Nat
  WICED_SUCCESS : Nat
  WICED_ERROR : Nat
  BTM_SECURITY_LOCAL_KEY_DATA_LEN : Nat
  BTSPK_NVRAM_ID_LOCAL_IRK : Nat
  BTM_IO_CAPABILITIES_NONE : Nat
  BTM_IO_CAPABILITIES_DISPLAY_AND_YES_NO_INPUT : Nat
  BTM_AUTH_SINGLE_PROFILE_NO : Nat
  BTM_AUTH_SINGLE_PROFILE_GENERAL_BONDING_NO : Nat
  BTM_OOB_NONE : Nat
  BTM_LE_AUTH_REQ_SC_MITM_BOND : Nat
  BTM_LE_KEY_PENC : Nat
  BTM_LE_KEY_PID : Nat
  BTM_LE_KEY_PCSRK : Nat
  BTM_LE_KEY_LENC : Nat
  BT_TRANSPORT_BR_EDR : Nat
  BT_TRANSPORT_LE : Nat
  WICED_APP_LE_INCLUDED : Bool
  WICED_APP_LE_SLAVE_CLIENT_INCLUDED : Bool
  FASTPAIR_DISABLE : Bool
  HCI_TRACE_OVER_TRANSPORT : Bool
  PLATFORM_LED_DISABLED : Bool
  AUTO_ELNA_SWITCH : Bool

/-- The C constant `WICED_FALSE`, as it is stored in a numeric field. -/
def WICED_FALSE : Nat := 0

/-- Representative values for the header constants, used only to evaluate the
model at concrete inputs.  No theorem about an arbitrary `Platform` depends on
them. -/
def sample_platform : Platform where
  WICED_BT_SUCCESS := 0
  WICED_BT_ERROR := 8109
  WICED_BT_NO_RESOURCES := 8102
  WICED_BT_USE_DEFAULT_SECURITY := 8120
  WICED_SUCCESS := 0
  WICED_ERROR := 4
  BTM_SECURITY_LOCAL_KEY_DATA_LEN := 16
  BTSPK_NVRAM_ID_LOCAL_IRK := 513
  BTM_IO_CAPABILITIES_NONE := 3
  BTM_IO_CAPABILITIES_DISPLAY_AND_YES_NO_INPUT := 1
  BTM_AUTH_SINGLE_PROFILE_NO := 0
  BTM_AUTH_SINGLE_PROFILE_GENERAL_BONDING_NO := 4
  BTM_OOB_NONE := 0
  BTM_LE_AUTH_REQ_SC_MITM_BOND := 13
  BTM_LE_KEY_PENC := 1
  BTM_LE_KEY_PID := 2
  BTM_LE_KEY_PCSRK := 4
  BTM_LE_KEY_LENC := 8
  BT_TRANSPORT_BR_EDR := 1
  BT_TRANSPORT_LE := 2
  WICED_APP_LE_INCLUDED := true
  WICED_APP_LE_SLAVE_CLIENT_INCLUDED := true
  FASTPAIR_DISABLE := false
  HCI_TRACE_OVER_TRANSPORT := false
  PLATFORM_LED_DISABLED := false
  AUTO_ELNA_SWITCH := false

/-! ## Data model -/

/-- Result codes are the numeric values of the C enumeration. -/
abbrev wiced_result_t := Nat

/-- A Bluetooth device address, as its bytes. -/
abbrev wiced_bt_device_address_t := List Nat

/-- The C struct `wiced_bt_local_identity_keys_t`: a buffer of
`BTM_SECURITY_LOCAL_KEY_DATA_LEN` bytes. -/
structure wiced_bt_local_identity_keys_t where
  local_key_data : List Nat
deriving DecidableEq

/-- The C struct `btspk_control_local_irk_info_t` (lines 167-171). -/
structure btspk_control_local_irk_info_t where
  local_irk : wiced_bt_local_identity_keys_t
  result : wiced_result_t
deriving DecidableEq

/-- The initial value of `local_irk_info`, from the initialiser `= {0}`
(line 173): every byte and the result field are zero. -/
def local_irk_info_init (K : Platform) : btspk_control_local_irk_info_t :=
  { local_irk := { local_key_data := List.replicate K.BTM_SECURITY_LOCAL_KEY_DATA_LEN 0 },
    result := 0 }

/-- The C struct `wiced_bt_device_link_keys_t`: a peer address and the key
material kept for it. -/
structure wiced_bt_device_link_keys_t where
  bd_addr : wiced_bt_device_address_t
  key_data : List Nat
deriving DecidableEq

/-- Member `enabled` of the event data. -/
structure wiced_bt_dev_enabled_t where
  status : wiced_result_t
deriving DecidableEq

/-- Member `user_confirmation_request` of the event data. -/
structure wiced_bt_dev_user_cfm_req_t where
  bd_addr : wiced_bt_device_address_t
  numeric_value : Nat
  just_works : Bool
deriving DecidableEq

/-- Member `pairing_io_capabilities_br_edr_request` of the event data. -/
structure wiced_bt_dev_bredr_io_caps_req_t where
  bd_addr : wiced_bt_device_address_t
  local_io_cap : Nat
  oob_data : Nat
  auth_req : Nat
  is_orig : Bool
deriving DecidableEq

/-- Member `pairing_io_capabilities_br_edr_response` of the event data. -/
structure wiced_bt_dev_bredr_io_caps_rsp_t where
  bd_addr : wiced_bt_device_address_t
  io_cap : Nat
  oob_data : Nat
  auth_req : Nat
deriving DecidableEq

/-- Member `pairing_io_capabilities_ble_request` of the event data. -/
structure wiced_bt_dev_ble_io_caps_req_t where
  bd_addr : wiced_bt_device_address_t
  local_io_cap : Nat
  oob_data : Nat
  auth_req : Nat
  max_key_size : Nat
  init_keys : Nat
  resp_keys : Nat
deriving DecidableEq

/-- Member `pairing_complete` of the event data; the two fields of the inner
union `pairing_complete_info` that the callback reads are kept side by side. -/
structure wiced_bt_dev_pairing_cplt_t where
  bd_addr : wiced_bt_device_address_t
  transport : Nat
  br_edr_status : Nat
  ble_reason : Nat
deriving DecidableEq

/-- Member `encryption_status` of the event data. -/
structure wiced_bt_dev_encryption_status_t where
  bd_addr : wiced_bt_device_address_t
  transport : Nat
  result : wiced_result_t
deriving DecidableEq

/-- Member `security_request` of the event data. -/
structure wiced_bt_dev_security_request_t where
  bd_addr : wiced_bt_device_address_t
deriving DecidableEq

/-- Member `power_mgmt_notification` of the event data. -/
structure wiced_bt_power_mgmt_notification_t where
  bd_addr : wiced_bt_device_address_t
  status : Nat
deriving DecidableEq

/-- The C union `wiced_bt_management_evt_data_t`, with the members that the
callback reads, writes or hands to a collaborator.  The members are kept side
by side; the callback touches only the member that belongs to the tag. -/
structure wiced_bt_management_evt_data_t where
  enabled : wiced_bt_dev_enabled_t
  user_confirmation_request : wiced_bt_dev_user_cfm_req_t
  pairing_io_capabilities_br_edr_request : wiced_bt_dev_bredr_io_caps_req_t
  pairing_io_capabilities_br_edr_response : wiced_bt_dev_bredr_io_caps_rsp_t
  pairing_io_capabilities_ble_request : wiced_bt_dev_ble_io_caps_req_t
  pairing_complete : wiced_bt_dev_pairing_cplt_t
  encryption_status : wiced_bt_dev_encryption_status_t
  security_request : wiced_bt_dev_security_request_t
  paired_device_link_keys_update : wiced_bt_device_link_keys_t
  paired_device_link_keys_request : wiced_bt_device_link_keys_t
  local_identity_keys_update : wiced_bt_local_identity_keys_t
  local_identity_keys_request : wiced_bt_local_identity_keys_t
  power_mgmt_notification : wiced_bt_power_mgmt_notification_t
deriving DecidableEq

/-- The tag `wiced_bt_management_evt_t`.  The named constructors are the case
labels of the switch in `btspk_control_management_callback`; `other tag` is any
tag value that has no case label there. -/
inductive wiced_bt_management_evt_t where
  | BTM_ENABLED_EVT
  | BTM_DISABLED_EVT
  | BTM_PIN_REQUEST_EVT
  | BTM_USER_CONFIRMATION_REQUEST_EVT
  | BTM_PASSKEY_NOTIFICATION_EVT
  | BTM_PAIRING_IO_CAPABILITIES_BR_EDR_REQUEST_EVT
  | BTM_PAIRING_IO_CAPABILITIES_BR_EDR_RESPONSE_EVT
  | BTM_PAIRING_IO_CAPABILITIES_BLE_REQUEST_EVT
  | BTM_PAIRING_COMPLETE_EVT
  | BTM_ENCRYPTION_STATUS_EVT
  | BTM_SECURITY_REQUEST_EVT
  | BTM_PAIRED_DEVICE_LINK_KEYS_UPDATE_EVT
  | BTM_PAIRED_DEVICE_LINK_KEYS_REQUEST_EVT
  | BTM_LOCAL_IDENTITY_KEYS_UPDATE_EVT
  | BTM_LOCAL_IDENTITY_KEYS_REQUEST_EVT
  | BTM_BLE_SCAN_STATE_CHANGED_EVT
  | BTM_BLE_ADVERT_STATE_CHANGED_EVT
  | BTM_POWER_MANAGEMENT_STATUS_EVT
  | BTM_SCO_CONNECTED_EVT
  | BTM_SCO_DISCONNECTED_EVT
  | BTM_SCO_CONNECTION_REQUEST_EVT
  | BTM_SCO_CONNECTION_CHANGE_EVT
  | BTM_BLE_CONNECTION_PARAM_UPDATE
  | BTM_BLE_PHY_UPDATE_EVT
  | other (tag : Nat)
deriving DecidableEq

/-! ## Collaborators -/

/-- What `wiced_hal_read_nvram` hands back: the byte count it returns, the
contents of the caller's buffer afterwards, and the status it stores. -/
structure NvramRead where
  nb_bytes : Nat
  p_data : List Nat
  status : wiced_result_t

/-- What `wiced_hal_write_nvram` hands back: the byte count it returns and the
status it stores. -/
structure NvramWrite where
  nb_bytes : Nat
  status : wiced_result_t

/-- What `bt_hs_spk_control_link_key_get` hands back: whether it found a
record, and the contents of the caller's request structure afterwards. -/
structure LinkKeyGet where
  found : Bool
  keys : wiced_bt_device_link_keys_t

/-- The answers of the collaborators during one invocation, and the value of
the external variable `hci_control_cb.pairing_allowed` at that time.  No
function of `btspk_control.c` calls the same answering collaborator twice in
one invocation, so one answer per collaborator is enough; a sequence of
invocations gets one `Env` each. -/
structure Env where
  wiced_hal_read_nvram : Nat → Nat → List Nat → NvramRead
  wiced_hal_write_nvram : Nat → Nat → List Nat → NvramWrite
  wiced_bt_gfps_provider_pairing_state_get : Bool
  pairing_allowed : Bool
  bt_hs_spk_control_link_key_get : wiced_bt_device_link_keys_t → LinkKeyGet
  bt_hs_spk_write_eir : wiced_result_t
  wiced_bt_sdp_db_init : Bool
  bt_hs_spk_post_stack_init : wiced_result_t
  wiced_bt_dev_set_afh_channel_assessment : wiced_result_t
  wiced_ota_fw_upgrade_init : Bool
  ofu_spp_init : wiced_result_t
  btspk_init_button_interface : wiced_result_t
  wiced_led_manager_init : wiced_result_t

/-- One invocation of a collaborator, with the arguments that the callback
passes. -/
inductive Call where
  | wiced_hal_read_nvram (vs_id len : Nat)
  | wiced_hal_write_nvram (vs_id len : Nat) (p_data : List Nat)
  | wiced_bt_dev_confirm_req_reply (res : wiced_result_t) (bd_addr : wiced_bt_device_address_t)
  | wiced_bt_gfps_provider_seeker_passkey_set (passkey : Nat)
  | wiced_bt_gfps_provider_pairing_state_get
  | wiced_bt_gfps_provider_disable
  | wiced_bt_ble_security_grant (bd_addr : wiced_bt_device_address_t) (res : wiced_result_t)
  | bt_hs_spk_button_check_disable_pairing
  | le_slave_encryption_status_changed (p_status : wiced_bt_dev_encryption_status_t)
  | bt_hs_spk_control_link_key_update (p_link_key : wiced_bt_device_link_keys_t)
  | bt_hs_spk_control_link_key_get (p_link_key : wiced_bt_device_link_keys_t)
  | bt_hs_spk_control_btm_event_handler_power_management_status
      (p_status : wiced_bt_power_mgmt_notification_t)
  | hf_sco_management_callback (event : wiced_bt_management_evt_t)
      (p_event_data : wiced_bt_management_evt_data_t)
  | bt_hs_spk_write_eir
  | wiced_bt_sdp_db_init
  | bt_hs_spk_post_stack_init
  | bt_hs_spk_set_audio_sink
  | hci_control_le_enable
  | wiced_bt_dev_set_afh_channel_assessment (enable : Bool)
  | wiced_ota_fw_upgrade_init
  | ofu_spp_init
  | wiced_hal_rfm_auto_elna_switch
  | wiced_bt_dev_register_hci_trace
  | btspk_init_button_interface
  | wiced_led_manager_init
deriving DecidableEq

/-! ## Library routines -/

/-- The C library routine `memcmp` on the first `n` bytes of two buffers: zero
when they agree, otherwise the difference of the first pair of bytes that
differ.  A buffer that ends early compares below one that goes on. -/
def memcmp : List Nat → List Nat → Nat → Int
  | _, _, 0 => 0
  | [], [], _ + 1 => 0
  | [], _ :: _, _ + 1 => -1
  | _ :: _, [], _ + 1 => 1
  | a :: as, b :: bs, n + 1 => if a = b then memcmp as bs n else (a : Int) - (b : Int)

/-- The C library routine `memcpy`: the first `n` bytes of `dst` are replaced
by the first `n` bytes of `src`; the value is the new content of `dst`. -/
def memcpy (dst src : List Nat) (n : Nat) : List Nat :=
  src.take n ++ dst.drop n

/-! ## The identity-key cache (lines 179-228) -/

/-- The function `btspk_control_local_irk_restore` (lines 182-194): the NVRAM
read fills the cached buffer and stores its status in `local_irk_info.result`.
The value is the new `local_irk_info` and the calls made. -/
def btspk_control_local_irk_restore (K : Platform) (env : Env)
    (local_irk_info : btspk_control_local_irk_info_t) :
    btspk_control_local_irk_info_t × List Call :=
  let rd := env.wiced_hal_read_nvram K.BTSPK_NVRAM_ID_LOCAL_IRK
    K.BTM_SECURITY_LOCAL_KEY_DATA_LEN local_irk_info.local_irk.local_key_data
  ({ local_irk := { local_key_data := rd.p_data }, result := rd.status },
   [Call.wiced_hal_read_nvram K.BTSPK_NVRAM_ID_LOCAL_IRK K.BTM_SECURITY_LOCAL_KEY_DATA_LEN])

/-- The function `btspk_control_local_irk_update` (lines 199-228).  The value
is the new `local_irk_info` and the calls made. -/
def btspk_control_local_irk_update (K : Platform) (env : Env)
    (local_irk_info : btspk_control_local_irk_info_t) (p_key : List Nat) :
    btspk_control_local_irk_info_t × List Call :=
  if memcmp p_key local_irk_info.local_irk.local_key_data
      K.BTM_SECURITY_LOCAL_KEY_DATA_LEN ≠ 0 then
    let wr := env.wiced_hal_write_nvram K.BTSPK_NVRAM_ID_LOCAL_IRK
      K.BTM_SECURITY_LOCAL_KEY_DATA_LEN p_key
    let calls := [Call.wiced_hal_write_nvram K.BTSPK_NVRAM_ID_LOCAL_IRK
      K.BTM_SECURITY_LOCAL_KEY_DATA_LEN p_key]
    if wr.nb_bytes = K.BTM_SECURITY_LOCAL_KEY_DATA_LEN ∧ wr.status = K.WICED_BT_SUCCESS then
      ({ local_irk := { local_key_data := (memcpy local_irk_info.local_irk.local_key_data
            p_key K.BTM_SECURITY_LOCAL_KEY_DATA_LEN) },
         result := wr.status }, calls)
    else
      (local_irk_info, calls)
  else
    (local_irk_info, [])

/-! ## Start-up after the stack is enabled (lines 293-395) -/

/-- The function `btspk_post_bt_init` (lines 293-395): its result code and the
calls it makes.  The configuration records it fills in are handed to
collaborators only and are not kept. -/
def btspk_post_bt_init (K : Platform) (env : Env) : wiced_result_t × List Call :=
  let c0 := [Call.bt_hs_spk_write_eir, Call.wiced_bt_sdp_db_init]
  if env.wiced_bt_sdp_db_init ≠ true then
    (K.WICED_BT_ERROR, c0)
  else
    let c1 := c0 ++ [Call.bt_hs_spk_post_stack_init]
    if K.WICED_SUCCESS ≠ env.bt_hs_spk_post_stack_init then
      (K.WICED_BT_ERROR, c1)
    else
      let c2 := c1 ++ [Call.bt_hs_spk_set_audio_sink]
        ++ (if K.WICED_APP_LE_INCLUDED then [Call.hci_control_le_enable] else [])
        ++ (if K.FASTPAIR_DISABLE then [Call.wiced_bt_gfps_provider_disable] else [])
        ++ [Call.wiced_bt_dev_set_afh_channel_assessment false]
      if env.wiced_bt_dev_set_afh_channel_assessment ≠ K.WICED_BT_SUCCESS then
        (K.WICED_BT_ERROR, c2)
      else
        let c3 := c2 ++ [Call.wiced_ota_fw_upgrade_init, Call.ofu_spp_init]
        if K.WICED_SUCCESS ≠ env.ofu_spp_init then
          (K.WICED_ERROR, c3)
        else
          (K.WICED_SUCCESS,
           c3 ++ (if K.AUTO_ELNA_SWITCH then [Call.wiced_hal_rfm_auto_elna_switch] else []))

/-! ## The management callback (lines 400-650) -/

/-- What one invocation of the callback leaves behind: the result code it
returns, the event data as the caller sees it afterwards, the new value of
`local_irk_info`, and the collaborator calls in the order they were made. -/
structure Outcome where
  result : wiced_result_t
  p_event_data : wiced_bt_management_evt_data_t
  local_irk_info : btspk_control_local_irk_info_t
  calls : List Call

/-- The function `btspk_control_management_callback` (lines 400-650).  The
local `result` starts as `WICED_BT_SUCCESS` (line 402) and is returned at the
end (line 649); the last arm is the `default` label of the switch. -/
def btspk_control_management_callback (K : Platform) (env : Env)
    (local_irk_info : btspk_control_local_irk_info_t)
    (event : wiced_bt_management_evt_t)
    (p_event_data : wiced_bt_management_evt_data_t) : Outcome :=
  let result := K.WICED_BT_SUCCESS
  match event with
  | .BTM_ENABLED_EVT =>
    -- the value of `btspk_post_bt_init()` is discarded (line 426)
    if p_event_data.enabled.status ≠ K.WICED_BT_SUCCESS then
      ⟨result, p_event_data, local_irk_info, []⟩
    else
      ⟨result, p_event_data, local_irk_info,
        (btspk_post_bt_init K env).2
        ++ (if K.HCI_TRACE_OVER_TRANSPORT then [Call.wiced_bt_dev_register_hci_trace] else [])
        ++ [Call.btspk_init_button_interface]
        ++ (if K.PLATFORM_LED_DISABLED then [] else [Call.wiced_led_manager_init])⟩
  | .BTM_DISABLED_EVT =>
    ⟨result, p_event_data, local_irk_info, []⟩
  | .BTM_PIN_REQUEST_EVT =>
    ⟨result, p_event_data, local_irk_info, []⟩
  | .BTM_USER_CONFIRMATION_REQUEST_EVT =>
    if p_event_data.user_confirmation_request.just_works then
      ⟨result, p_event_data, local_irk_info,
        [Call.wiced_bt_dev_confirm_req_reply K.WICED_BT_SUCCESS
          p_event_data.user_confirmation_request.bd_addr]⟩
    else
      ⟨result, p_event_data, local_irk_info,
        [Call.wiced_bt_gfps_provider_seeker_passkey_set
          p_event_data.user_confirmation_request.numeric_value,
         Call.wiced_bt_dev_confirm_req_reply K.WICED_BT_SUCCESS
          p_event_data.user_confirmation_request.bd_addr]⟩
  | .BTM_PASSKEY_NOTIFICATION_EVT =>
    ⟨result, p_event_data, local_irk_info, []⟩
  | .BTM_PAIRING_IO_CAPABILITIES_BR_EDR_REQUEST_EVT =>
    let req := p_event_data.pairing_io_capabilities_br_edr_request
    let req1 :=
      if env.wiced_bt_gfps_provider_pairing_state_get then
        { req with local_io_cap := K.BTM_IO_CAPABILITIES_DISPLAY_AND_YES_NO_INPUT }
      else
        { req with local_io_cap := K.BTM_IO_CAPABILITIES_NONE }
    let req2 := { req1 with auth_req := K.BTM_AUTH_SINGLE_PROFILE_GENERAL_BONDING_NO }
    let req3 := { req2 with oob_data := WICED_FALSE }
    ⟨result, { p_event_data with pairing_io_capabilities_br_edr_request := req3 },
      local_irk_info, [Call.wiced_bt_gfps_provider_pairing_state_get]⟩
  | .BTM_PAIRING_IO_CAPABILITIES_BR_EDR_RESPONSE_EVT =>
    -- lines 499-507: the seeker state is queried; both branches only trace
    ⟨result, p_event_data, local_irk_info, [Call.wiced_bt_gfps_provider_pairing_state_get]⟩
  | .BTM_PAIRING_IO_CAPABILITIES_BLE_REQUEST_EVT =>
    let req := p_event_data.pairing_io_capabilities_ble_request
    let req1 := { req with
      local_io_cap := K.BTM_IO_CAPABILITIES_NONE
      oob_data := K.BTM_OOB_NONE
      auth_req := K.BTM_LE_AUTH_REQ_SC_MITM_BOND
      max_key_size := 16
      init_keys := K.BTM_LE_KEY_PENC ||| K.BTM_LE_KEY_PID ||| K.BTM_LE_KEY_PCSRK
        ||| K.BTM_LE_KEY_LENC
      resp_keys := K.BTM_LE_KEY_PENC ||| K.BTM_LE_KEY_PID ||| K.BTM_LE_KEY_PCSRK
        ||| K.BTM_LE_KEY_LENC }
    ⟨result, { p_event_data with pairing_io_capabilities_ble_request := req1 },
      local_irk_info, []⟩
  | .BTM_PAIRING_COMPLETE_EVT =>
    let p_pairing_cmpl := p_event_data.pairing_complete
    if p_pairing_cmpl.transport = K.BT_TRANSPORT_BR_EDR then
      -- the local `pairing_result` is a `uint8_t`
      let pairing_result := p_pairing_cmpl.br_edr_status % 256
      if pairing_result = K.WICED_BT_SUCCESS then
        ⟨result, p_event_data, local_irk_info, [Call.bt_hs_spk_button_check_disable_pairing]⟩
      else
        ⟨result, p_event_data, local_irk_info, []⟩
    else
      ⟨result, p_event_data, local_irk_info, []⟩
  | .BTM_ENCRYPTION_STATUS_EVT =>
    let p_encryption_status := p_event_data.encryption_status
    if K.WICED_APP_LE_SLAVE_CLIENT_INCLUDED ∧
        p_encryption_status.transport = K.BT_TRANSPORT_LE then
      ⟨result, p_event_data, local_irk_info,
        [Call.le_slave_encryption_status_changed p_encryption_status]⟩
    else
      ⟨result, p_event_data, local_irk_info, []⟩
  | .BTM_SECURITY_REQUEST_EVT =>
    if env.pairing_allowed then
      ⟨result, p_event_data, local_irk_info,
        [Call.wiced_bt_ble_security_grant p_event_data.security_request.bd_addr
          K.WICED_BT_SUCCESS]⟩
    else
      ⟨K.WICED_BT_ERROR, p_event_data, local_irk_info, []⟩
  | .BTM_PAIRED_DEVICE_LINK_KEYS_UPDATE_EVT =>
    ⟨result, p_event_data, local_irk_info,
      [Call.bt_hs_spk_control_link_key_update p_event_data.paired_device_link_keys_update]⟩
  | .BTM_PAIRED_DEVICE_LINK_KEYS_REQUEST_EVT =>
    let got := env.bt_hs_spk_control_link_key_get p_event_data.paired_device_link_keys_request
    let calls := [Call.bt_hs_spk_control_link_key_get
      p_event_data.paired_device_link_keys_request]
    let data := { p_event_data with paired_device_link_keys_request := got.keys }
    if got.found = true then
      ⟨K.WICED_BT_SUCCESS, data, local_irk_info, calls⟩
    else
      ⟨K.WICED_BT_ERROR, data, local_irk_info, calls⟩
  | .BTM_LOCAL_IDENTITY_KEYS_UPDATE_EVT =>
    let upd := btspk_control_local_irk_update K env local_irk_info
      p_event_data.local_identity_keys_update.local_key_data
    ⟨result, p_event_data, upd.1, upd.2⟩
  | .BTM_LOCAL_IDENTITY_KEYS_REQUEST_EVT =>
    if local_irk_info.result = K.WICED_BT_SUCCESS then
      ⟨result,
        { p_event_data with local_identity_keys_request :=
            { local_key_data := (memcpy p_event_data.local_identity_keys_request.local_key_data
                local_irk_info.local_irk.local_key_data K.BTM_SECURITY_LOCAL_KEY_DATA_LEN) } },
        local_irk_info, []⟩
    else
      ⟨K.WICED_BT_NO_RESOURCES, p_event_data, local_irk_info, []⟩
  | .BTM_BLE_SCAN_STATE_CHANGED_EVT =>
    ⟨result, p_event_data, local_irk_info, []⟩
  | .BTM_BLE_ADVERT_STATE_CHANGED_EVT =>
    ⟨result, p_event_data, local_irk_info, []⟩
  | .BTM_POWER_MANAGEMENT_STATUS_EVT =>
    ⟨result, p_event_data, local_irk_info,
      [Call.bt_hs_spk_control_btm_event_handler_power_management_status
        p_event_data.power_mgmt_notification]⟩
  | .BTM_SCO_CONNECTED_EVT =>
    ⟨result, p_event_data, local_irk_info,
      [Call.hf_sco_management_callback event p_event_data]⟩
  | .BTM_SCO_DISCONNECTED_EVT =>
    ⟨result, p_event_data, local_irk_info,
      [Call.hf_sco_management_callback event p_event_data]⟩
  | .BTM_SCO_CONNECTION_REQUEST_EVT =>
    ⟨result, p_event_data, local_irk_info,
      [Call.hf_sco_management_callback event p_event_data]⟩
  | .BTM_SCO_CONNECTION_CHANGE_EVT =>
    ⟨result, p_event_data, local_irk_info,
      [Call.hf_sco_management_callback event p_event_data]⟩
  | .BTM_BLE_CONNECTION_PARAM_UPDATE =>
    ⟨result, p_event_data, local_irk_info, []⟩
  | .BTM_BLE_PHY_UPDATE_EVT =>
    ⟨result, p_event_data, local_irk_info, []⟩
  | _ =>
    ⟨K.WICED_BT_USE_DEFAULT_SECURITY, p_event_data, local_irk_info, []⟩

/-- The case labels of the switch (lines 416-644), in source order. -/
def case_labels : List wiced_bt_management_evt_t :=
  [.BTM_ENABLED_EVT, .BTM_DISABLED_EVT, .BTM_PIN_REQUEST_EVT,
   .BTM_USER_CONFIRMATION_REQUEST_EVT, .BTM_PASSKEY_NOTIFICATION_EVT,
   .BTM_PAIRING_IO_CAPABILITIES_BR_EDR_REQUEST_EVT,
   .BTM_PAIRING_IO_CAPABILITIES_BR_EDR_RESPONSE_EVT,
   .BTM_PAIRING_IO_CAPABILITIES_BLE_REQUEST_EVT, .BTM_PAIRING_COMPLETE_EVT,
   .BTM_ENCRYPTION_STATUS_EVT, .BTM_SECURITY_REQUEST_EVT,
   .BTM_PAIRED_DEVICE_LINK_KEYS_UPDATE_EVT, .BTM_PAIRED_DEVICE_LINK_KEYS_REQUEST_EVT,
   .BTM_LOCAL_IDENTITY_KEYS_UPDATE_EVT, .BTM_LOCAL_IDENTITY_KEYS_REQUEST_EVT,
   .BTM_BLE_SCAN_STATE_CHANGED_EVT, .BTM_BLE_ADVERT_STATE_CHANGED_EVT,
   .BTM_POWER_MANAGEMENT_STATUS_EVT, .BTM_SCO_CONNECTED_EVT, .BTM_SCO_DISCONNECTED_EVT,
   .BTM_SCO_CONNECTION_REQUEST_EVT, .BTM_SCO_CONNECTION_CHANGE_EVT,
   .BTM_BLE_CONNECTION_PARAM_UPDATE, .BTM_BLE_PHY_UPDATE_EVT]

/-- The persistent writes among a list of calls. -/
def nvram_writes (calls : List Call) : List Call :=
  calls.filter fun c =>
    match c with
    | .wiced_hal_write_nvram _ _ _ => true
    | _ => false

/-! ## Sequences of events -/

/-- One delivery of an event by the stack: what the collaborators answer while
the callback runs, the tag, and the event data. -/
structure Delivery where
  env : Env
  event : wiced_bt_management_evt_t
  p_event_data : wiced_bt_management_evt_data_t

/-- The stack, with which the callback is registered (line 260), delivers the
events one at a time; each invocation runs to the end before the next one
starts.  The value is `local_irk_info` after the last delivery and the calls of
all deliveries in order. -/
def deliver_all (K : Platform) :
    btspk_control_local_irk_info_t → List Delivery →
      btspk_control_local_irk_info_t × List Call
  | info, [] => (info, [])
  | info, d :: ds =>
    let out := btspk_control_management_callback K d.env info d.event d.p_event_data
    let rest := deliver_all K out.local_irk_info ds
    (rest.1, out.calls ++ rest.2)

/-! ## The link-key registry -/

/-- Modelled from the spec: the peer link-key registry that stands behind
`bt_hs_spk_control_link_key_update` and `bt_hs_spk_control_link_key_get`; the
code of both is not among the sources.  The registry maps a peer address to
the record kept for it, "at most one LinkKeyRecord per DeviceAddress". -/
abbrev LinkKeyRegistry := List wiced_bt_device_link_keys_t

/-- Modelled from the spec: `put(record)` of the registry, the missing function
`bt_hs_spk_control_link_key_update`.  It "unconditionally replaces any existing
record for that peer"; "one update event fully supersedes the prior record". -/
def bt_hs_spk_control_link_key_update (reg : LinkKeyRegistry)
    (p_link_key : wiced_bt_device_link_keys_t) : LinkKeyRegistry :=
  p_link_key :: reg.filter fun r => decide (r.bd_addr ≠ p_link_key.bd_addr)

/-- Modelled from the spec: `get(peer) -> LinkKeyRecord | NotFound` of the
registry, the missing function `bt_hs_spk_control_link_key_get`.  The peer is
the address in the caller's request; when a record is kept for it the request
is overwritten with that record and the answer is found, otherwise the request
is left as it is and the answer is not found. -/
def bt_hs_spk_control_link_key_get (reg : LinkKeyRegistry)
    (p_link_key : wiced_bt_device_link_keys_t) : LinkKeyGet :=
  match reg.find? fun r => decide (r.bd_addr = p_link_key.bd_addr) with
  | some r => { found := true, keys := r }
  | none => { found := false, keys := p_link_key }

/-- The effect of one collaborator call on the registry: a call of
`bt_hs_spk_control_link_key_update` stores its record, every other call leaves
the registry alone. -/
def registry_step (reg : LinkKeyRegistry) : Call → LinkKeyRegistry
  | .bt_hs_spk_control_link_key_update p_link_key =>
    bt_hs_spk_control_link_key_update reg p_link_key
  | _ => reg

/-- One invocation of the callback with the registry as the collaborator: the
lookup is answered from the registry, and the calls of the invocation act on
the registry in order. -/
def callback_with_registry (K : Platform) (env : Env) (reg : LinkKeyRegistry)
    (local_irk_info : btspk_control_local_irk_info_t)
    (event : wiced_bt_management_evt_t)
    (p_event_data : wiced_bt_management_evt_data_t) : Outcome × LinkKeyRegistry :=
  let out := btspk_control_management_callback K
    { env with bt_hs_spk_control_link_key_get := bt_hs_spk_control_link_key_get reg }
    local_irk_info event p_event_data
  (out, out.calls.foldl registry_step reg)

/-- A sequence of deliveries with the registry as the collaborator: the value
is `local_irk_info` and the registry after the last delivery. -/
def deliver_all_with_registry (K : Platform) :
    btspk_control_local_irk_info_t × LinkKeyRegistry → List Delivery →
      btspk_control_local_irk_info_t × LinkKeyRegistry
  | st, [] => st
  | st, d :: ds =>
    let step := callback_with_registry K d.env st.2 st.1 d.event d.p_event_data
    deliver_all_with_registry K (step.1.local_irk_info, step.2) ds

/-! ## Concrete inputs -/

/-- A store that holds no identity record and accepts every write in full; the
seeker is idle, pairing is allowed, no link key is known. -/
def sample_env : Env where
  wiced_hal_read_nvram := fun _ _ buf => { nb_bytes := 0, p_data := buf, status := 8109 }
  wiced_hal_write_nvram := fun _ len _ => { nb_bytes := len, status := 0 }
  wiced_bt_gfps_provider_pairing_state_get := false
  pairing_allowed := true
  bt_hs_spk_control_link_key_get := fun k => { found := false, keys := k }
  bt_hs_spk_write_eir := 0
  wiced_bt_sdp_db_init := true
  bt_hs_spk_post_stack_init := 0
  wiced_bt_dev_set_afh_channel_assessment := 0
  wiced_ota_fw_upgrade_init := true
  ofu_spp_init := 0
  btspk_init_button_interface := 0
  wiced_led_manager_init := 0

/-- As `sample_env`, but the store rejects every write. -/
def sample_env_write_fails : Env :=
  { sample_env with
    wiced_hal_write_nvram := fun _ _ _ => { nb_bytes := 0, status := 8109 } }

/-- As `sample_env`, but the store writes only part of the key and still
reports success. -/
def sample_env_write_short : Env :=
  { sample_env with
    wiced_hal_write_nvram := fun _ _ _ => { nb_bytes := 7, status := 0 } }

/-- A key of sixteen bytes `1, ..., 16`. -/
def sample_key_a : List Nat := List.range' 1 16

/-- A key of sixteen bytes `101, ..., 116`. -/
def sample_key_b : List Nat := List.range' 101 16

/-- A key of sixteen zero bytes. -/
def sample_key_zero : List Nat := List.replicate 16 0

/-- A cache that holds `sample_key_a` and is valid. -/
def sample_cache_a : btspk_control_local_irk_info_t :=
  { local_irk := { local_key_data := sample_key_a }, result := 0 }

/-- Event data with every buffer sized as in C and every other field zero. -/
def sample_data : wiced_bt_management_evt_data_t where
  enabled := { status := 0 }
  user_confirmation_request := { bd_addr := [1, 2, 3, 4, 5, 6], numeric_value := 123456,
                                 just_works := false }
  pairing_io_capabilities_br_edr_request :=
    { bd_addr := [1, 2, 3, 4, 5, 6], local_io_cap := 7, oob_data := 7, auth_req := 0,
      is_orig := false }
  pairing_io_capabilities_br_edr_response :=
    { bd_addr := [1, 2, 3, 4, 5, 6], io_cap := 3, oob_data := 0, auth_req := 0 }
  pairing_io_capabilities_ble_request :=
    { bd_addr := [1, 2, 3, 4, 5, 6], local_io_cap := 7, oob_data := 7, auth_req := 0,
      max_key_size := 7, init_keys := 0, resp_keys := 0 }
  pairing_complete := { bd_addr := [1, 2, 3, 4, 5, 6], transport := 1, br_edr_status := 0,
                        ble_reason := 0 }
  encryption_status := { bd_addr := [1, 2, 3, 4, 5, 6], transport := 2, result := 0 }
  security_request := { bd_addr := [1, 2, 3, 4, 5, 6] }
  paired_device_link_keys_update := { bd_addr := [1, 2, 3, 4, 5, 6], key_data := [9, 9] }
  paired_device_link_keys_request := { bd_addr := [1, 2, 3, 4, 5, 6], key_data := [0, 0] }
  local_identity_keys_update := { local_key_data := sample_key_b }
  local_identity_keys_request := { local_key_data := List.replicate 16 255 }
  power_mgmt_notification := { bd_addr := [1, 2, 3, 4, 5, 6], status := 0 }

/-! ## Library routines: basic facts -/

theorem memcmp_eq_zero_iff (a b : List Nat) (n : Nat) :
    memcmp a b n = 0 ↔ a.take n = b.take n := by
  induction n generalizing a b with
  | zero => simp [memcmp]
  | succ n ih =>
    cases a with
    | nil => cases b <;> simp [memcmp]
    | cons x xs =>
      cases b with
      | nil => simp [memcmp]
      | cons y ys =>
        by_cases hxy : x = y
        · simp [memcmp, hxy, ih]
        · have : (x : Int) - (y : Int) ≠ 0 := by omega
          simp [memcmp, hxy, this]

theorem memcpy_full (dst src : List Nat) (n : Nat)
    (hdst : dst.length = n) (hsrc : src.length = n) : memcpy dst src n = src := by
  simp [memcpy, ← hsrc, List.drop_of_length_le (le_of_eq (hdst.trans hsrc.symm))]

/-! ## The identity-key cache -/

theorem local_irk_update_same (K : Platform) (env : Env)
    (info : btspk_control_local_irk_info_t) (p_key : List Nat)
    (hsame : p_key.take K.BTM_SECURITY_LOCAL_KEY_DATA_LEN
      = info.local_irk.local_key_data.take K.BTM_SECURITY_LOCAL_KEY_DATA_LEN) :
    btspk_control_local_irk_update K env info p_key = (info, []) := by
  simp [btspk_control_local_irk_update, (memcmp_eq_zero_iff _ _ _).mpr hsame]

theorem local_irk_update_stored (K : Platform) (env : Env)
    (info : btspk_control_local_irk_info_t) (p_key : List Nat)
    (hdiff : p_key.take K.BTM_SECURITY_LOCAL_KEY_DATA_LEN
      ≠ info.local_irk.local_key_data.take K.BTM_SECURITY_LOCAL_KEY_DATA_LEN)
    (hnb : (env.wiced_hal_write_nvram K.BTSPK_NVRAM_ID_LOCAL_IRK
      K.BTM_SECURITY_LOCAL_KEY_DATA_LEN p_key).nb_bytes = K.BTM_SECURITY_LOCAL_KEY_DATA_LEN)
    (hst : (env.wiced_hal_write_nvram K.BTSPK_NVRAM_ID_LOCAL_IRK
      K.BTM_SECURITY_LOCAL_KEY_DATA_LEN p_key).status = K.WICED_BT_SUCCESS) :
    btspk_control_local_irk_update K env info p_key =
      ({ local_irk := { local_key_data := (memcpy info.local_irk.local_key_data p_key
            K.BTM_SECURITY_LOCAL_KEY_DATA_LEN) },
         result := K.WICED_BT_SUCCESS },
       [Call.wiced_hal_write_nvram K.BTSPK_NVRAM_ID_LOCAL_IRK
          K.BTM_SECURITY_LOCAL_KEY_DATA_LEN p_key]) := by
  have hcmp : memcmp p_key info.local_irk.local_key_data
      K.BTM_SECURITY_LOCAL_KEY_DATA_LEN ≠ 0 := fun h => hdiff ((memcmp_eq_zero_iff _ _ _).mp h)
  simp [btspk_control_local_irk_update, hcmp, hnb, hst]

theorem local_irk_update_rejected (K : Platform) (env : Env)
    (info : btspk_control_local_irk_info_t) (p_key : List Nat)
    (hfail : ¬ ((env.wiced_hal_write_nvram K.BTSPK_NVRAM_ID_LOCAL_IRK
        K.BTM_SECURITY_LOCAL_KEY_DATA_LEN p_key).nb_bytes = K.BTM_SECURITY_LOCAL_KEY_DATA_LEN
      ∧ (env.wiced_hal_write_nvram K.BTSPK_NVRAM_ID_LOCAL_IRK
        K.BTM_SECURITY_LOCAL_KEY_DATA_LEN p_key).status = K.WICED_BT_SUCCESS)) :
    (btspk_control_local_irk_update K env info p_key).1 = info := by
  unfold btspk_control_local_irk_update
  split
  · simp only [if_neg hfail]
  · rfl

/-- C1: for every cached state and every new key whose bytes differ from the
cached bytes, `btspk_control_local_irk_update` issues one NVRAM write and
changes `local_irk_info` only if that write returned the full key length
together with the success status, in which case the cache holds the new key and
the success status; if the write returned a short byte count or a failure
status, `local_irk_info` (key bytes and result) is exactly what it was before
the call. -/
theorem local_irk_update_commits_only_after_write (K : Platform) (env : Env)
    (info : btspk_control_local_irk_info_t) (p_key : List Nat)
    (hdiff : p_key.take K.BTM_SECURITY_LOCAL_KEY_DATA_LEN
      ≠ info.local_irk.local_key_data.take K.BTM_SECURITY_LOCAL_KEY_DATA_LEN) :
    ((btspk_control_local_irk_update K env info p_key).1 ≠ info →
      (env.wiced_hal_write_nvram K.BTSPK_NVRAM_ID_LOCAL_IRK
          K.BTM_SECURITY_LOCAL_KEY_DATA_LEN p_key).nb_bytes = K.BTM_SECURITY_LOCAL_KEY_DATA_LEN
        ∧ (env.wiced_hal_write_nvram K.BTSPK_NVRAM_ID_LOCAL_IRK
          K.BTM_SECURITY_LOCAL_KEY_DATA_LEN p_key).status = K.WICED_BT_SUCCESS)
    ∧ ((env.wiced_hal_write_nvram K.BTSPK_NVRAM_ID_LOCAL_IRK
          K.BTM_SECURITY_LOCAL_KEY_DATA_LEN p_key).nb_bytes ≠ K.BTM_SECURITY_LOCAL_KEY_DATA_LEN
        ∨ (env.wiced_hal_write_nvram K.BTSPK_NVRAM_ID_LOCAL_IRK
          K.BTM_SECURITY_LOCAL_KEY_DATA_LEN p_key).status ≠ K.WICED_BT_SUCCESS →
      (btspk_control_local_irk_update K env info p_key).1 = info)
    ∧ ((env.wiced_hal_write_nvram K.BTSPK_NVRAM_ID_LOCAL_IRK
          K.BTM_SECURITY_LOCAL_KEY_DATA_LEN p_key).nb_bytes = K.BTM_SECURITY_LOCAL_KEY_DATA_LEN
        ∧ (env.wiced_hal_write_nvram K.BTSPK_NVRAM_ID_LOCAL_IRK
          K.BTM_SECURITY_LOCAL_KEY_DATA_LEN p_key).status = K.WICED_BT_SUCCESS →
      (btspk_control_local_irk_update K env info p_key).1 =
        { local_irk := { local_key_data := (memcpy info.local_irk.local_key_data p_key
            K.BTM_SECURITY_LOCAL_KEY_DATA_LEN) },
          result := K.WICED_BT_SUCCESS })
    ∧ (btspk_control_local_irk_update K env info p_key).2 =
        [Call.wiced_hal_write_nvram K.BTSPK_NVRAM_ID_LOCAL_IRK
          K.BTM_SECURITY_LOCAL_KEY_DATA_LEN p_key] := by
  refine ⟨?_, ?_, ?_, ?_⟩
  · intro hchg
    by_contra hfail
    exact hchg (local_irk_update_rejected K env info p_key hfail)
  · intro hfail
    apply local_irk_update_rejected
    rintro ⟨hnb, hst⟩
    rcases hfail with h | h
    · exact h hnb
    · exact h hst
  · rintro ⟨hnb, hst⟩
    rw [local_irk_update_stored K env info p_key hdiff hnb hst]
  · have hcmp : memcmp p_key info.local_irk.local_key_data
        K.BTM_SECURITY_LOCAL_KEY_DATA_LEN ≠ 0 :=
      fun h => hdiff ((memcmp_eq_zero_iff _ _ _).mp h)
    unfold btspk_control_local_irk_update
    rw [if_pos hcmp]
    dsimp only
    split <;> rfl

/-- C1 at a concrete input: the cache holds `sample_key_a`, the new key is
`sample_key_b`, and the store rejects the write; the cache is unchanged. -/
theorem local_irk_update_commits_only_after_write_witness :
    sample_key_b.take sample_platform.BTM_SECURITY_LOCAL_KEY_DATA_LEN
      ≠ sample_cache_a.local_irk.local_key_data.take
          sample_platform.BTM_SECURITY_LOCAL_KEY_DATA_LEN
    ∧ (btspk_control_local_irk_update sample_platform sample_env_write_fails
        sample_cache_a sample_key_b).1 = sample_cache_a :=
  ⟨by decide,
   (local_irk_update_commits_only_after_write sample_platform sample_env_write_fails
      sample_cache_a sample_key_b (by decide)).2.1 (Or.inl (by decide))⟩

/-- C2: for every cached state and every key whose bytes are identical to the
cached key bytes, `btspk_control_local_irk_update` makes no call at all (so no
persistent write) and returns `local_irk_info` unchanged; the same holds for the
identity-key update event of the callback, which returns success. -/
theorem local_irk_update_identical_is_noop (K : Platform) (env : Env)
    (info : btspk_control_local_irk_info_t) (p_key : List Nat)
    (data : wiced_bt_management_evt_data_t)
    (hsame : p_key.take K.BTM_SECURITY_LOCAL_KEY_DATA_LEN
      = info.local_irk.local_key_data.take K.BTM_SECURITY_LOCAL_KEY_DATA_LEN)
    (hdata : data.local_identity_keys_update.local_key_data = p_key) :
    btspk_control_local_irk_update K env info p_key = (info, [])
    ∧ (btspk_control_management_callback K env info
        .BTM_LOCAL_IDENTITY_KEYS_UPDATE_EVT data).local_irk_info = info
    ∧ (btspk_control_management_callback K env info
        .BTM_LOCAL_IDENTITY_KEYS_UPDATE_EVT data).calls = []
    ∧ (btspk_control_management_callback K env info
        .BTM_LOCAL_IDENTITY_KEYS_UPDATE_EVT data).result = K.WICED_BT_SUCCESS := by
  have h := local_irk_update_same K env info p_key hsame
  subst hdata
  simp [btspk_control_management_callback, h]

/-- C2 at a concrete input: the cache holds `sample_key_a` and the update
carries `sample_key_a` again. -/
theorem local_irk_update_identical_is_noop_witness :
    btspk_control_local_irk_update sample_platform sample_env sample_cache_a sample_key_a
      = (sample_cache_a, []) :=
  (local_irk_update_identical_is_noop sample_platform sample_env sample_cache_a sample_key_a
    { sample_data with local_identity_keys_update := { local_key_data := sample_key_a } }
    (by decide) rfl).1

theorem local_irk_update_stored_full (K : Platform) (env : Env)
    (info : btspk_control_local_irk_info_t) (p_key : List Nat)
    (hkey : p_key.length = K.BTM_SECURITY_LOCAL_KEY_DATA_LEN)
    (hcache : info.local_irk.local_key_data.length = K.BTM_SECURITY_LOCAL_KEY_DATA_LEN)
    (hdiff : info.local_irk.local_key_data ≠ p_key)
    (hnb : (env.wiced_hal_write_nvram K.BTSPK_NVRAM_ID_LOCAL_IRK
      K.BTM_SECURITY_LOCAL_KEY_DATA_LEN p_key).nb_bytes = K.BTM_SECURITY_LOCAL_KEY_DATA_LEN)
    (hst : (env.wiced_hal_write_nvram K.BTSPK_NVRAM_ID_LOCAL_IRK
      K.BTM_SECURITY_LOCAL_KEY_DATA_LEN p_key).status = K.WICED_BT_SUCCESS) :
    btspk_control_local_irk_update K env info p_key =
      ({ local_irk := { local_key_data := p_key }, result := K.WICED_BT_SUCCESS },
       [Call.wiced_hal_write_nvram K.BTSPK_NVRAM_ID_LOCAL_IRK
          K.BTM_SECURITY_LOCAL_KEY_DATA_LEN p_key]) := by
  have htake : p_key.take K.BTM_SECURITY_LOCAL_KEY_DATA_LEN
      ≠ info.local_irk.local_key_data.take K.BTM_SECURITY_LOCAL_KEY_DATA_LEN := by
    rw [List.take_of_length_le (le_of_eq hkey), List.take_of_length_le (le_of_eq hcache)]
    exact fun h => hdiff h.symm
  rw [local_irk_update_stored K env info p_key htake hnb hst,
    memcpy_full _ _ _ hcache hkey]

theorem identity_keys_request_eq (K : Platform) (env : Env)
    (info : btspk_control_local_irk_info_t) (data : wiced_bt_management_evt_data_t)
    (hcache : info.local_irk.local_key_data.length = K.BTM_SECURITY_LOCAL_KEY_DATA_LEN)
    (hbuf : data.local_identity_keys_request.local_key_data.length
      = K.BTM_SECURITY_LOCAL_KEY_DATA_LEN) :
    btspk_control_management_callback K env info .BTM_LOCAL_IDENTITY_KEYS_REQUEST_EVT data =
      if info.result = K.WICED_BT_SUCCESS then
        { result := K.WICED_BT_SUCCESS,
          p_event_data := { data with
            local_identity_keys_request := { local_key_data := info.local_irk.local_key_data } },
          local_irk_info := info,
          calls := [] }
      else
        { result := K.WICED_BT_NO_RESOURCES, p_event_data := data, local_irk_info := info,
          calls := [] } := by
  simp only [btspk_control_management_callback, memcpy_full _ _ _ hbuf hcache]

/-- C3, as the specification states it, fails at two concrete inputs.  First:
the store accepts every write and the cache already holds the first key
`sample_key_a`; the two updates lead to a request that returns the second key,
but only one persistent write occurred.  Second: the cache holds
`sample_key_a`, the two keys differ from it and from each other, and the store
rejects every write; two writes are issued, but the request returns
`sample_key_a`, not the second key. -/
theorem local_irk_update_twice_counterexample :
    (sample_key_a ≠ sample_key_b
      ∧ (btspk_control_management_callback sample_platform sample_env
          (btspk_control_local_irk_update sample_platform sample_env
            (btspk_control_local_irk_update sample_platform sample_env
              sample_cache_a sample_key_a).1 sample_key_b).1
          .BTM_LOCAL_IDENTITY_KEYS_REQUEST_EVT
          sample_data).p_event_data.local_identity_keys_request.local_key_data = sample_key_b
      ∧ (nvram_writes
          ((btspk_control_local_irk_update sample_platform sample_env
              sample_cache_a sample_key_a).2
            ++ (btspk_control_local_irk_update sample_platform sample_env
              (btspk_control_local_irk_update sample_platform sample_env
                sample_cache_a sample_key_a).1 sample_key_b).2)).length = 1)
    ∧ (sample_key_b ≠ sample_key_zero
      ∧ (btspk_control_management_callback sample_platform sample_env_write_fails
          (btspk_control_local_irk_update sample_platform sample_env_write_fails
            (btspk_control_local_irk_update sample_platform sample_env_write_fails
              sample_cache_a sample_key_b).1 sample_key_zero).1
          .BTM_LOCAL_IDENTITY_KEYS_REQUEST_EVT
          sample_data).p_event_data.local_identity_keys_request.local_key_data = sample_key_a
      ∧ sample_key_a ≠ sample_key_zero
      ∧ (nvram_writes
          ((btspk_control_local_irk_update sample_platform sample_env_write_fails
              sample_cache_a sample_key_b).2
            ++ (btspk_control_local_irk_update sample_platform sample_env_write_fails
              (btspk_control_local_irk_update sample_platform sample_env_write_fails
                sample_cache_a sample_key_b).1 sample_key_zero).2)).length = 2) := by
  decide

/-- C3 (amended): for all keys `k1 != k2` of the full key length, starting
from a cache whose bytes differ from `k1` and with the store returning the full
length and the success status for both writes, the update with `k1` followed by
the update with `k2` makes the identity-key request return success with the
event buffer holding `k2`, the persistent writes issued are exactly two (first
`k1`, then `k2`), and repeating the update with `k1` right after the first one
issues no call and leaves the cache as it is. -/
theorem local_irk_update_twice_then_request (K : Platform) (env1 env2 env3 env4 : Env)
    (info : btspk_control_local_irk_info_t) (k1 k2 : List Nat)
    (data : wiced_bt_management_evt_data_t)
    (hk1 : k1.length = K.BTM_SECURITY_LOCAL_KEY_DATA_LEN)
    (hk2 : k2.length = K.BTM_SECURITY_LOCAL_KEY_DATA_LEN)
    (hcache : info.local_irk.local_key_data.length = K.BTM_SECURITY_LOCAL_KEY_DATA_LEN)
    (hbuf : data.local_identity_keys_request.local_key_data.length
      = K.BTM_SECURITY_LOCAL_KEY_DATA_LEN)
    (hne : k1 ≠ k2)
    (hfresh : info.local_irk.local_key_data ≠ k1)
    (hw1 : (env1.wiced_hal_write_nvram K.BTSPK_NVRAM_ID_LOCAL_IRK
        K.BTM_SECURITY_LOCAL_KEY_DATA_LEN k1).nb_bytes = K.BTM_SECURITY_LOCAL_KEY_DATA_LEN
      ∧ (env1.wiced_hal_write_nvram K.BTSPK_NVRAM_ID_LOCAL_IRK
        K.BTM_SECURITY_LOCAL_KEY_DATA_LEN k1).status = K.WICED_BT_SUCCESS)
    (hw2 : (env2.wiced_hal_write_nvram K.BTSPK_NVRAM_ID_LOCAL_IRK
        K.BTM_SECURITY_LOCAL_KEY_DATA_LEN k2).nb_bytes = K.BTM_SECURITY_LOCAL_KEY_DATA_LEN
      ∧ (env2.wiced_hal_write_nvram K.BTSPK_NVRAM_ID_LOCAL_IRK
        K.BTM_SECURITY_LOCAL_KEY_DATA_LEN k2).status = K.WICED_BT_SUCCESS) :
    (btspk_control_management_callback K env3
        (btspk_control_local_irk_update K env2
          (btspk_control_local_irk_update K env1 info k1).1 k2).1
        .BTM_LOCAL_IDENTITY_KEYS_REQUEST_EVT data).result = K.WICED_BT_SUCCESS
    ∧ (btspk_control_management_callback K env3
        (btspk_control_local_irk_update K env2
          (btspk_control_local_irk_update K env1 info k1).1 k2).1
        .BTM_LOCAL_IDENTITY_KEYS_REQUEST_EVT
        data).p_event_data.local_identity_keys_request.local_key_data = k2
    ∧ nvram_writes ((btspk_control_local_irk_update K env1 info k1).2
        ++ (btspk_control_local_irk_update K env2
          (btspk_control_local_irk_update K env1 info k1).1 k2).2)
      = [Call.wiced_hal_write_nvram K.BTSPK_NVRAM_ID_LOCAL_IRK
            K.BTM_SECURITY_LOCAL_KEY_DATA_LEN k1,
         Call.wiced_hal_write_nvram K.BTSPK_NVRAM_ID_LOCAL_IRK
            K.BTM_SECURITY_LOCAL_KEY_DATA_LEN k2]
    ∧ btspk_control_local_irk_update K env4 (btspk_control_local_irk_update K env1 info k1).1 k1
      = ((btspk_control_local_irk_update K env1 info k1).1, []) := by
  have h1 := local_irk_update_stored_full K env1 info k1 hk1 hcache hfresh hw1.1 hw1.2
  have h2 := local_irk_update_stored_full K env2
    { local_irk := { local_key_data := k1 }, result := K.WICED_BT_SUCCESS } k2 hk2 hk1 hne
    hw2.1 hw2.2
  have h3 := identity_keys_request_eq K env3
    { local_irk := { local_key_data := k2 }, result := K.WICED_BT_SUCCESS } data hk2 hbuf
  have h4 := local_irk_update_same K env4
    { local_irk := { local_key_data := k1 }, result := K.WICED_BT_SUCCESS } k1 rfl
  rw [h1]
  dsimp only
  rw [h2]
  dsimp only
  rw [h3, h4]
  simp [nvram_writes]

/-- C3 (amended) at a concrete input: the initial all-zero cache, then
`sample_key_a`, then `sample_key_b`, with a store that accepts every write. -/
theorem local_irk_update_twice_then_request_witness :
    sample_key_a ≠ sample_key_b
    ∧ (local_irk_info_init sample_platform).local_irk.local_key_data ≠ sample_key_a
    ∧ (btspk_control_management_callback sample_platform sample_env
        (btspk_control_local_irk_update sample_platform sample_env
          (btspk_control_local_irk_update sample_platform sample_env
            (local_irk_info_init sample_platform) sample_key_a).1 sample_key_b).1
        .BTM_LOCAL_IDENTITY_KEYS_REQUEST_EVT
        sample_data).p_event_data.local_identity_keys_request.local_key_data = sample_key_b :=
  ⟨by decide, by decide,
   (local_irk_update_twice_then_request sample_platform sample_env sample_env sample_env
      sample_env (local_irk_info_init sample_platform) sample_key_a sample_key_b sample_data
      (by decide) (by decide) (by decide) (by decide) (by decide) (by decide)
      ⟨by decide, by decide⟩ ⟨by decide, by decide⟩).2.1⟩

/-! ## The management callback -/

/-- C4: when `btspk_control_local_irk_restore` runs against a store whose read
of the identity record reports a status other than success (the record was
never written), the cache is left not valid (its result is not the success
code), and a following identity-key request event returns
`WICED_BT_NO_RESOURCES`, hands out no key (the event data is untouched), makes
no call and leaves the cache as restore left it. -/
theorem local_irk_restore_empty_then_request (K : Platform) (env env2 : Env)
    (info : btspk_control_local_irk_info_t) (data : wiced_bt_management_evt_data_t)
    (hread : (env.wiced_hal_read_nvram K.BTSPK_NVRAM_ID_LOCAL_IRK
      K.BTM_SECURITY_LOCAL_KEY_DATA_LEN info.local_irk.local_key_data).status
        ≠ K.WICED_BT_SUCCESS) :
    (btspk_control_local_irk_restore K env info).1.result ≠ K.WICED_BT_SUCCESS
    ∧ (btspk_control_local_irk_restore K env info).2 =
        [Call.wiced_hal_read_nvram K.BTSPK_NVRAM_ID_LOCAL_IRK
          K.BTM_SECURITY_LOCAL_KEY_DATA_LEN]
    ∧ (btspk_control_management_callback K env2 (btspk_control_local_irk_restore K env info).1
        .BTM_LOCAL_IDENTITY_KEYS_REQUEST_EVT data).result = K.WICED_BT_NO_RESOURCES
    ∧ (btspk_control_management_callback K env2 (btspk_control_local_irk_restore K env info).1
        .BTM_LOCAL_IDENTITY_KEYS_REQUEST_EVT data).p_event_data = data
    ∧ (btspk_control_management_callback K env2 (btspk_control_local_irk_restore K env info).1
        .BTM_LOCAL_IDENTITY_KEYS_REQUEST_EVT data).calls = []
    ∧ (btspk_control_management_callback K env2 (btspk_control_local_irk_restore K env info).1
        .BTM_LOCAL_IDENTITY_KEYS_REQUEST_EVT data).local_irk_info
        = (btspk_control_local_irk_restore K env info).1 := by
  simp [btspk_control_local_irk_restore, btspk_control_management_callback, hread]

/-- C4 at a concrete input: the initial cache, restored from a store that
reports the record as missing (status 8109), then an identity-key request. -/
theorem local_irk_restore_empty_then_request_witness :
    (sample_env.wiced_hal_read_nvram sample_platform.BTSPK_NVRAM_ID_LOCAL_IRK
        sample_platform.BTM_SECURITY_LOCAL_KEY_DATA_LEN
        (local_irk_info_init sample_platform).local_irk.local_key_data).status
      ≠ sample_platform.WICED_BT_SUCCESS
    ∧ (btspk_control_management_callback sample_platform sample_env
        (btspk_control_local_irk_restore sample_platform sample_env
          (local_irk_info_init sample_platform)).1
        .BTM_LOCAL_IDENTITY_KEYS_REQUEST_EVT sample_data).result
      = sample_platform.WICED_BT_NO_RESOURCES :=
  ⟨by decide,
   (local_irk_restore_empty_then_request sample_platform sample_env sample_env
      (local_irk_info_init sample_platform) sample_data (by decide)).2.2.1⟩

/-- C5: for every cache state (with the cached buffer and the event buffer of
the key length), the identity-key request event returns `WICED_BT_SUCCESS` with
the event buffer set to exactly the cached key bytes when the cache result is
the success code, and otherwise returns `WICED_BT_NO_RESOURCES` with the event
data unmodified; in both cases the cache is unchanged and no call is made. -/
theorem identity_keys_request_outcome (K : Platform) (env : Env)
    (info : btspk_control_local_irk_info_t) (data : wiced_bt_management_evt_data_t)
    (hcache : info.local_irk.local_key_data.length = K.BTM_SECURITY_LOCAL_KEY_DATA_LEN)
    (hbuf : data.local_identity_keys_request.local_key_data.length
      = K.BTM_SECURITY_LOCAL_KEY_DATA_LEN) :
    (info.result = K.WICED_BT_SUCCESS →
      (btspk_control_management_callback K env info
          .BTM_LOCAL_IDENTITY_KEYS_REQUEST_EVT data).result = K.WICED_BT_SUCCESS
      ∧ (btspk_control_management_callback K env info
          .BTM_LOCAL_IDENTITY_KEYS_REQUEST_EVT data).p_event_data =
        { data with
          local_identity_keys_request := { local_key_data := info.local_irk.local_key_data } })
    ∧ (info.result ≠ K.WICED_BT_SUCCESS →
      (btspk_control_management_callback K env info
          .BTM_LOCAL_IDENTITY_KEYS_REQUEST_EVT data).result = K.WICED_BT_NO_RESOURCES
      ∧ (btspk_control_management_callback K env info
          .BTM_LOCAL_IDENTITY_KEYS_REQUEST_EVT data).p_event_data = data)
    ∧ (btspk_control_management_callback K env info
        .BTM_LOCAL_IDENTITY_KEYS_REQUEST_EVT data).local_irk_info = info
    ∧ (btspk_control_management_callback K env info
        .BTM_LOCAL_IDENTITY_KEYS_REQUEST_EVT data).calls = [] := by
  rw [identity_keys_request_eq K env info data hcache hbuf]
  by_cases hvalid : info.result = K.WICED_BT_SUCCESS <;> simp [hvalid]

/-- C5 at a concrete input: a valid cache holding `sample_key_a`; the request
returns success and the event buffer holds `sample_key_a`. -/
theorem identity_keys_request_outcome_witness :
    (btspk_control_management_callback sample_platform sample_env sample_cache_a
        .BTM_LOCAL_IDENTITY_KEYS_REQUEST_EVT sample_data).result
      = sample_platform.WICED_BT_SUCCESS
    ∧ (btspk_control_management_callback sample_platform sample_env sample_cache_a
        .BTM_LOCAL_IDENTITY_KEYS_REQUEST_EVT sample_data).p_event_data =
      { sample_data with local_identity_keys_request := { local_key_data := sample_key_a } } :=
  (identity_keys_request_outcome sample_platform sample_env sample_cache_a sample_data
    (by decide) (by decide)).1 (by decide)

/-- C6: for every classic (BR/EDR) I/O-capability request event, the request
written back has `local_io_cap` equal to display+yes/no when the seeker reports
pairing active and equal to none when it does not; in both branches `oob_data`
is `WICED_FALSE` and `auth_req` is general bonding without forced MITM, so
(the header giving "no bonding" another value) `auth_req` is not "no bonding"
while the seeker is active; the event returns success, the seeker state is
queried once, and the peer address and the cache are untouched. -/
theorem bredr_io_capabilities_request_decision (K : Platform) (env : Env)
    (info : btspk_control_local_irk_info_t) (data : wiced_bt_management_evt_data_t) :
    (btspk_control_management_callback K env info
        .BTM_PAIRING_IO_CAPABILITIES_BR_EDR_REQUEST_EVT data).result = K.WICED_BT_SUCCESS
    ∧ (btspk_control_management_callback K env info
        .BTM_PAIRING_IO_CAPABILITIES_BR_EDR_REQUEST_EVT
        data).p_event_data.pairing_io_capabilities_br_edr_request.local_io_cap =
      (if env.wiced_bt_gfps_provider_pairing_state_get = true then
        K.BTM_IO_CAPABILITIES_DISPLAY_AND_YES_NO_INPUT
      else K.BTM_IO_CAPABILITIES_NONE)
    ∧ (btspk_control_management_callback K env info
        .BTM_PAIRING_IO_CAPABILITIES_BR_EDR_REQUEST_EVT
        data).p_event_data.pairing_io_capabilities_br_edr_request.oob_data = WICED_FALSE
    ∧ (btspk_control_management_callback K env info
        .BTM_PAIRING_IO_CAPABILITIES_BR_EDR_REQUEST_EVT
        data).p_event_data.pairing_io_capabilities_br_edr_request.auth_req =
      K.BTM_AUTH_SINGLE_PROFILE_GENERAL_BONDING_NO
    ∧ (K.BTM_AUTH_SINGLE_PROFILE_GENERAL_BONDING_NO ≠ K.BTM_AUTH_SINGLE_PROFILE_NO →
      env.wiced_bt_gfps_provider_pairing_state_get = true →
      (btspk_control_management_callback K env info
        .BTM_PAIRING_IO_CAPABILITIES_BR_EDR_REQUEST_EVT
        data).p_event_data.pairing_io_capabilities_br_edr_request.auth_req ≠
      K.BTM_AUTH_SINGLE_PROFILE_NO)
    ∧ (btspk_control_management_callback K env info
        .BTM_PAIRING_IO_CAPABILITIES_BR_EDR_REQUEST_EVT
        data).p_event_data.pairing_io_capabilities_br_edr_request.bd_addr =
      data.pairing_io_capabilities_br_edr_request.bd_addr
    ∧ (btspk_control_management_callback K env info
        .BTM_PAIRING_IO_CAPABILITIES_BR_EDR_REQUEST_EVT data).calls =
      [Call.wiced_bt_gfps_provider_pairing_state_get]
    ∧ (btspk_control_management_callback K env info
        .BTM_PAIRING_IO_CAPABILITIES_BR_EDR_REQUEST_EVT data).local_irk_info = info := by
  cases hseek : env.wiced_bt_gfps_provider_pairing_state_get <;>
    simp [btspk_control_management_callback, hseek]

/-- C6 at a concrete input: the seeker reports pairing active; the request
written back carries display+yes/no (1) and general bonding (4), not "no
bonding" (0). -/
theorem bredr_io_capabilities_request_decision_witness :
    (btspk_control_management_callback sample_platform
        { sample_env with wiced_bt_gfps_provider_pairing_state_get := true }
        sample_cache_a .BTM_PAIRING_IO_CAPABILITIES_BR_EDR_REQUEST_EVT
        sample_data).p_event_data.pairing_io_capabilities_br_edr_request.local_io_cap = 1
    ∧ (btspk_control_management_callback sample_platform
        { sample_env with wiced_bt_gfps_provider_pairing_state_get := true }
        sample_cache_a .BTM_PAIRING_IO_CAPABILITIES_BR_EDR_REQUEST_EVT
        sample_data).p_event_data.pairing_io_capabilities_br_edr_request.auth_req ≠
      sample_platform.BTM_AUTH_SINGLE_PROFILE_NO :=
  ⟨(bredr_io_capabilities_request_decision sample_platform
      { sample_env with wiced_bt_gfps_provider_pairing_state_get := true }
      sample_cache_a sample_data).2.1,
   (bredr_io_capabilities_request_decision sample_platform
      { sample_env with wiced_bt_gfps_provider_pairing_state_get := true }
      sample_cache_a sample_data).2.2.2.2.1 (by decide) rfl⟩

/-- C7: for every low-energy I/O-capability request event, whatever the
collaborators answer (the seeker state among them), whatever the cache left by
earlier events, and whatever the event data held before: `max_key_size` is 16,
`local_io_cap` is none, `oob_data` is none, `auth_req` is secure connections +
MITM + bonding, `init_keys` and `resp_keys` are both PENC|PID|PCSRK|LENC, the
peer address is untouched, the event returns success, no call is made and the
cache is unchanged. -/
theorem ble_io_capabilities_request_decision (K : Platform) (env : Env)
    (info : btspk_control_local_irk_info_t) (data : wiced_bt_management_evt_data_t) :
    (btspk_control_management_callback K env info
        .BTM_PAIRING_IO_CAPABILITIES_BLE_REQUEST_EVT data).p_event_data =
      { data with pairing_io_capabilities_ble_request :=
        { bd_addr := data.pairing_io_capabilities_ble_request.bd_addr,
          local_io_cap := K.BTM_IO_CAPABILITIES_NONE,
          oob_data := K.BTM_OOB_NONE,
          auth_req := K.BTM_LE_AUTH_REQ_SC_MITM_BOND,
          max_key_size := 16,
          init_keys := K.BTM_LE_KEY_PENC ||| K.BTM_LE_KEY_PID ||| K.BTM_LE_KEY_PCSRK
            ||| K.BTM_LE_KEY_LENC,
          resp_keys := K.BTM_LE_KEY_PENC ||| K.BTM_LE_KEY_PID ||| K.BTM_LE_KEY_PCSRK
            ||| K.BTM_LE_KEY_LENC } }
    ∧ (btspk_control_management_callback K env info
        .BTM_PAIRING_IO_CAPABILITIES_BLE_REQUEST_EVT
        data).p_event_data.pairing_io_capabilities_ble_request.max_key_size = 16
    ∧ (btspk_control_management_callback K env info
        .BTM_PAIRING_IO_CAPABILITIES_BLE_REQUEST_EVT
        data).p_event_data.pairing_io_capabilities_ble_request.init_keys =
      (btspk_control_management_callback K env info
        .BTM_PAIRING_IO_CAPABILITIES_BLE_REQUEST_EVT
        data).p_event_data.pairing_io_capabilities_ble_request.resp_keys
    ∧ (btspk_control_management_callback K env info
        .BTM_PAIRING_IO_CAPABILITIES_BLE_REQUEST_EVT data).result = K.WICED_BT_SUCCESS
    ∧ (btspk_control_management_callback K env info
        .BTM_PAIRING_IO_CAPABILITIES_BLE_REQUEST_EVT data).calls = []
    ∧ (btspk_control_management_callback K env info
        .BTM_PAIRING_IO_CAPABILITIES_BLE_REQUEST_EVT data).local_irk_info = info := by
  simp [btspk_control_management_callback]

/-- C8: for every security-request event, if `pairing_allowed` is false the
callback returns `WICED_BT_ERROR` and makes no call (no security grant); if it
is true the callback makes exactly one call, the security grant for the
requesting peer address with the success status, and returns
`WICED_BT_SUCCESS`.  The event data and the cache are untouched, and the
outcome is the same whatever the seeker reports. -/
theorem security_request_gated_by_pairing_allowed (K : Platform) (env : Env)
    (info : btspk_control_local_irk_info_t) (data : wiced_bt_management_evt_data_t) :
    (env.pairing_allowed = false →
      (btspk_control_management_callback K env info .BTM_SECURITY_REQUEST_EVT data).result
        = K.WICED_BT_ERROR
      ∧ (btspk_control_management_callback K env info .BTM_SECURITY_REQUEST_EVT data).calls
        = [])
    ∧ (env.pairing_allowed = true →
      (btspk_control_management_callback K env info .BTM_SECURITY_REQUEST_EVT data).result
        = K.WICED_BT_SUCCESS
      ∧ (btspk_control_management_callback K env info .BTM_SECURITY_REQUEST_EVT data).calls
        = [Call.wiced_bt_ble_security_grant data.security_request.bd_addr K.WICED_BT_SUCCESS])
    ∧ (btspk_control_management_callback K env info .BTM_SECURITY_REQUEST_EVT
        data).p_event_data = data
    ∧ (btspk_control_management_callback K env info .BTM_SECURITY_REQUEST_EVT
        data).local_irk_info = info
    ∧ (∀ seeker : Bool,
      (btspk_control_management_callback K
          { env with wiced_bt_gfps_provider_pairing_state_get := seeker } info
          .BTM_SECURITY_REQUEST_EVT data).result
        = (btspk_control_management_callback K env info .BTM_SECURITY_REQUEST_EVT data).result
      ∧ (btspk_control_management_callback K
          { env with wiced_bt_gfps_provider_pairing_state_get := seeker } info
          .BTM_SECURITY_REQUEST_EVT data).calls
        = (btspk_control_management_callback K env info .BTM_SECURITY_REQUEST_EVT
            data).calls) := by
  cases hallow : env.pairing_allowed <;>
    simp [btspk_control_management_callback, hallow]

/-- C8 at concrete inputs: with pairing not allowed the callback returns the
error code 8109 and makes no call; with pairing allowed it issues one grant
for the peer `1, ..., 6`. -/
theorem security_request_gated_by_pairing_allowed_witness :
    ((btspk_control_management_callback sample_platform
        { sample_env with pairing_allowed := false } sample_cache_a
        .BTM_SECURITY_REQUEST_EVT sample_data).result = sample_platform.WICED_BT_ERROR
      ∧ (btspk_control_management_callback sample_platform
        { sample_env with pairing_allowed := false } sample_cache_a
        .BTM_SECURITY_REQUEST_EVT sample_data).calls = [])
    ∧ (btspk_control_management_callback sample_platform sample_env sample_cache_a
        .BTM_SECURITY_REQUEST_EVT sample_data).calls
      = [Call.wiced_bt_ble_security_grant [1, 2, 3, 4, 5, 6] 0] :=
  ⟨(security_request_gated_by_pairing_allowed sample_platform
      { sample_env with pairing_allowed := false } sample_cache_a sample_data).1 rfl,
   ((security_request_gated_by_pairing_allowed sample_platform sample_env sample_cache_a
      sample_data).2.1 rfl).2⟩

/-- C9: the callback is a total function, so it returns a result code for
every tag; for every tag that is not one of the case labels of the switch the
result is `WICED_BT_USE_DEFAULT_SECURITY`, no collaborator is called, and the
event data and the identity-key cache are unchanged. -/
theorem unhandled_event_uses_default_security (K : Platform) (env : Env)
    (info : btspk_control_local_irk_info_t) (event : wiced_bt_management_evt_t)
    (data : wiced_bt_management_evt_data_t)
    (hnolabel : event ∉ case_labels) :
    (btspk_control_management_callback K env info event data).result
      = K.WICED_BT_USE_DEFAULT_SECURITY
    ∧ (btspk_control_management_callback K env info event data).calls = []
    ∧ (btspk_control_management_callback K env info event data).local_irk_info = info
    ∧ (btspk_control_management_callback K env info event data).p_event_data = data := by
  cases event <;> first
    | (exfalso; apply hnolabel; simp [case_labels]; done)
    | simp [btspk_control_management_callback]

/-- C9 at a concrete input: the tag value 99 has no case label. -/
theorem unhandled_event_uses_default_security_witness :
    wiced_bt_management_evt_t.other 99 ∉ case_labels
    ∧ (btspk_control_management_callback sample_platform sample_env sample_cache_a
        (.other 99) sample_data).result = sample_platform.WICED_BT_USE_DEFAULT_SECURITY :=
  ⟨by decide,
   (unhandled_event_uses_default_security sample_platform sample_env sample_cache_a
      (.other 99) sample_data (by decide)).1⟩

/-- C10: for every link-key request event (the error code being distinct from
the success code), the callback returns `WICED_BT_SUCCESS` if and only if
`bt_hs_spk_control_link_key_get` reports found for the request; when it reports
not found the callback returns `WICED_BT_ERROR`.  The lookup is called exactly
once, with the request of the event. -/
theorem link_keys_request_result (K : Platform) (env : Env)
    (info : btspk_control_local_irk_info_t) (data : wiced_bt_management_evt_data_t)
    (hcodes : K.WICED_BT_ERROR ≠ K.WICED_BT_SUCCESS) :
    ((btspk_control_management_callback K env info
        .BTM_PAIRED_DEVICE_LINK_KEYS_REQUEST_EVT data).result = K.WICED_BT_SUCCESS
      ↔ (env.bt_hs_spk_control_link_key_get data.paired_device_link_keys_request).found = true)
    ∧ ((env.bt_hs_spk_control_link_key_get data.paired_device_link_keys_request).found = false →
      (btspk_control_management_callback K env info
        .BTM_PAIRED_DEVICE_LINK_KEYS_REQUEST_EVT data).result = K.WICED_BT_ERROR)
    ∧ (btspk_control_management_callback K env info
        .BTM_PAIRED_DEVICE_LINK_KEYS_REQUEST_EVT data).calls
      = [Call.bt_hs_spk_control_link_key_get data.paired_device_link_keys_request] := by
  cases hfound : (env.bt_hs_spk_control_link_key_get
      data.paired_device_link_keys_request).found <;>
    simp [btspk_control_management_callback, hfound, hcodes]

/-- C10 at a concrete input: the registry knows no key for the peer; the
callback returns the error code 8109. -/
theorem link_keys_request_result_witness :
    sample_platform.WICED_BT_ERROR ≠ sample_platform.WICED_BT_SUCCESS
    ∧ (btspk_control_management_callback sample_platform sample_env sample_cache_a
        .BTM_PAIRED_DEVICE_LINK_KEYS_REQUEST_EVT sample_data).result
      = sample_platform.WICED_BT_ERROR :=
  ⟨by decide,
   (link_keys_request_result sample_platform sample_env sample_cache_a sample_data
      (by decide)).2.1 rfl⟩

/-! ## The cache across events -/

theorem callback_cache_of_ne_update (K : Platform) (env : Env)
    (info : btspk_control_local_irk_info_t) (event : wiced_bt_management_evt_t)
    (data : wiced_bt_management_evt_data_t)
    (hev : event ≠ .BTM_LOCAL_IDENTITY_KEYS_UPDATE_EVT) :
    (btspk_control_management_callback K env info event data).local_irk_info = info := by
  cases event <;> first
    | exact absurd rfl hev
    | rfl
    | (simp only [btspk_control_management_callback]; split_ifs <;> rfl)

theorem local_irk_update_keeps_valid (K : Platform) (env : Env)
    (info : btspk_control_local_irk_info_t) (p_key : List Nat)
    (hvalid : info.result = K.WICED_BT_SUCCESS) :
    (btspk_control_local_irk_update K env info p_key).1.result = K.WICED_BT_SUCCESS := by
  unfold btspk_control_local_irk_update
  split
  · dsimp only
    split
    · next h => exact h.2
    · exact hvalid
  · exact hvalid

theorem local_irk_update_bytes_changed (K : Platform) (env : Env)
    (info : btspk_control_local_irk_info_t) (p_key : List Nat)
    (hchg : (btspk_control_local_irk_update K env info p_key).1.local_irk.local_key_data
      ≠ info.local_irk.local_key_data) :
    p_key.take K.BTM_SECURITY_LOCAL_KEY_DATA_LEN
      ≠ info.local_irk.local_key_data.take K.BTM_SECURITY_LOCAL_KEY_DATA_LEN := by
  intro hsame
  rw [local_irk_update_same K env info p_key hsame] at hchg
  exact hchg rfl

theorem callback_keeps_valid (K : Platform) (env : Env)
    (info : btspk_control_local_irk_info_t) (event : wiced_bt_management_evt_t)
    (data : wiced_bt_management_evt_data_t)
    (hvalid : info.result = K.WICED_BT_SUCCESS) :
    (btspk_control_management_callback K env info event data).local_irk_info.result
      = K.WICED_BT_SUCCESS := by
  by_cases hev : event = .BTM_LOCAL_IDENTITY_KEYS_UPDATE_EVT
  · subst hev
    exact local_irk_update_keeps_valid K env info _ hvalid
  · rw [callback_cache_of_ne_update K env info event data hev]
    exact hvalid

theorem deliver_all_keeps_valid (K : Platform) (ds : List Delivery) :
    ∀ info : btspk_control_local_irk_info_t, info.result = K.WICED_BT_SUCCESS →
      (deliver_all K info ds).1.result = K.WICED_BT_SUCCESS := by
  induction ds with
  | nil => intro info hvalid; exact hvalid
  | cons d ds ih =>
    intro info hvalid
    exact ih _ (callback_keeps_valid K d.env info d.event d.p_event_data hvalid)

theorem deliver_all_without_update (K : Platform) (ds : List Delivery) :
    ∀ info : btspk_control_local_irk_info_t,
      (∀ d ∈ ds, d.event ≠ .BTM_LOCAL_IDENTITY_KEYS_UPDATE_EVT) →
      (deliver_all K info ds).1 = info := by
  induction ds with
  | nil => intro info _; rfl
  | cons d ds ih =>
    intro info hno
    have hd := callback_cache_of_ne_update K d.env info d.event d.p_event_data
      (hno d (List.mem_cons_self d ds))
    have hrest := ih (btspk_control_management_callback K d.env info d.event
      d.p_event_data).local_irk_info (fun e he => hno e (List.mem_cons_of_mem d he))
    simp only [deliver_all]
    rw [hrest, hd]

/-- C11: once the identity-key cache is valid (its result is the success
code), it is valid after every sequence of events delivered to
`btspk_control_management_callback` and after every single event; a sequence
without an identity-key update event leaves the cache exactly as it was; and
when one event changes the cached key bytes, that event is the identity-key
update event and the key it carries differs from the cached bytes. -/
theorem valid_cache_stays_valid (K : Platform) (info : btspk_control_local_irk_info_t)
    (hvalid : info.result = K.WICED_BT_SUCCESS) :
    (∀ ds : List Delivery, (deliver_all K info ds).1.result = K.WICED_BT_SUCCESS)
    ∧ (∀ (env : Env) (event : wiced_bt_management_evt_t)
        (data : wiced_bt_management_evt_data_t),
        (btspk_control_management_callback K env info event data).local_irk_info.result
          = K.WICED_BT_SUCCESS)
    ∧ (∀ ds : List Delivery, (∀ d ∈ ds, d.event ≠ .BTM_LOCAL_IDENTITY_KEYS_UPDATE_EVT) →
        (deliver_all K info ds).1 = info)
    ∧ (∀ (env : Env) (event : wiced_bt_management_evt_t)
        (data : wiced_bt_management_evt_data_t),
        (btspk_control_management_callback K env info event
            data).local_irk_info.local_irk.local_key_data ≠ info.local_irk.local_key_data →
          event = .BTM_LOCAL_IDENTITY_KEYS_UPDATE_EVT
          ∧ data.local_identity_keys_update.local_key_data.take
              K.BTM_SECURITY_LOCAL_KEY_DATA_LEN
            ≠ info.local_irk.local_key_data.take K.BTM_SECURITY_LOCAL_KEY_DATA_LEN) := by
  refine ⟨fun ds => deliver_all_keeps_valid K ds info hvalid,
    fun env event data => callback_keeps_valid K env info event data hvalid,
    fun ds hno => deliver_all_without_update K ds info hno, ?_⟩
  intro env event data hchg
  by_cases hev : event = .BTM_LOCAL_IDENTITY_KEYS_UPDATE_EVT
  · subst hev
    exact ⟨rfl, local_irk_update_bytes_changed K env info _ hchg⟩
  · rw [callback_cache_of_ne_update K env info event data hev] at hchg
    exact absurd rfl hchg

/-- C11 at a concrete input: a valid cache holding `sample_key_a`, then a
security request, an identity-key update whose write is rejected, an
identity-key update that is stored, and a tag without a case label; the cache
is still valid. -/
theorem valid_cache_stays_valid_witness :
    sample_cache_a.result = sample_platform.WICED_BT_SUCCESS
    ∧ (deliver_all sample_platform sample_cache_a
        [{ env := sample_env, event := .BTM_SECURITY_REQUEST_EVT, p_event_data := sample_data },
         { env := sample_env_write_fails, event := .BTM_LOCAL_IDENTITY_KEYS_UPDATE_EVT,
           p_event_data := sample_data },
         { env := sample_env, event := .BTM_LOCAL_IDENTITY_KEYS_UPDATE_EVT,
           p_event_data := sample_data },
         { env := sample_env, event := .other 99, p_event_data := sample_data }]).1.result
      = sample_platform.WICED_BT_SUCCESS :=
  ⟨by decide, (valid_cache_stays_valid sample_platform sample_cache_a (by decide)).1 _⟩

/-! ## The link-key registry -/

theorem registry_find_after_update_same (reg : LinkKeyRegistry)
    (r : wiced_bt_device_link_keys_t) :
    (bt_hs_spk_control_link_key_update reg r).find?
      (fun x => decide (x.bd_addr = r.bd_addr)) = some r := by
  simp [bt_hs_spk_control_link_key_update]

theorem registry_find_after_update_other (reg : LinkKeyRegistry)
    (r : wiced_bt_device_link_keys_t) (peer : wiced_bt_device_address_t)
    (hother : r.bd_addr ≠ peer) :
    (bt_hs_spk_control_link_key_update reg r).find? (fun x => decide (x.bd_addr = peer))
      = reg.find? (fun x => decide (x.bd_addr = peer)) := by
  unfold bt_hs_spk_control_link_key_update
  rw [List.find?_cons_of_neg _ (by simpa using hother)]
  induction reg with
  | nil => rfl
  | cons y ys ih =>
    by_cases hy : y.bd_addr = peer
    · subst hy
      simp [List.filter_cons, Ne.symm hother]
    · by_cases hyr : y.bd_addr = r.bd_addr
      · simpa [List.filter_cons, hyr, hother] using ih
      · simpa [List.filter_cons, hyr, hy] using ih

theorem registry_after_callback (K : Platform) (env : Env) (reg : LinkKeyRegistry)
    (info : btspk_control_local_irk_info_t) (event : wiced_bt_management_evt_t)
    (data : wiced_bt_management_evt_data_t) :
    (btspk_control_management_callback K env info event data).calls.foldl registry_step reg
      = if event = .BTM_PAIRED_DEVICE_LINK_KEYS_UPDATE_EVT then
          bt_hs_spk_control_link_key_update reg data.paired_device_link_keys_update
        else reg := by
  cases event <;> simp only [btspk_control_management_callback, btspk_post_bt_init,
      btspk_control_local_irk_update] <;>
    split_ifs <;> first
      | contradiction
      | simp [registry_step]

theorem callback_with_registry_find (K : Platform) (env : Env) (reg : LinkKeyRegistry)
    (info : btspk_control_local_irk_info_t) (event : wiced_bt_management_evt_t)
    (data : wiced_bt_management_evt_data_t) (peer : wiced_bt_device_address_t)
    (hother : event = .BTM_PAIRED_DEVICE_LINK_KEYS_UPDATE_EVT →
      data.paired_device_link_keys_update.bd_addr ≠ peer) :
    (callback_with_registry K env reg info event data).2.find?
        (fun x => decide (x.bd_addr = peer))
      = reg.find? (fun x => decide (x.bd_addr = peer)) := by
  unfold callback_with_registry
  dsimp only
  rw [registry_after_callback]
  split_ifs with hev
  · exact registry_find_after_update_other reg _ peer (hother hev)
  · rfl

theorem deliver_all_with_registry_find (K : Platform) (peer : wiced_bt_device_address_t)
    (ds : List Delivery) :
    ∀ st : btspk_control_local_irk_info_t × LinkKeyRegistry,
      (∀ d ∈ ds, d.event = .BTM_PAIRED_DEVICE_LINK_KEYS_UPDATE_EVT →
        d.p_event_data.paired_device_link_keys_update.bd_addr ≠ peer) →
      (deliver_all_with_registry K st ds).2.find? (fun x => decide (x.bd_addr = peer))
        = st.2.find? (fun x => decide (x.bd_addr = peer)) := by
  induction ds with
  | nil => intro st _; rfl
  | cons d ds ih =>
    intro st hno
    simp only [deliver_all_with_registry]
    rw [ih _ (fun e he => hno e (List.mem_cons_of_mem d he))]
    exact callback_with_registry_find K d.env st.2 st.1 d.event d.p_event_data peer
      (hno d (List.mem_cons_self d ds))

theorem link_keys_request_found (K : Platform) (env : Env) (reg : LinkKeyRegistry)
    (info : btspk_control_local_irk_info_t) (data : wiced_bt_management_evt_data_t)
    (r : wiced_bt_device_link_keys_t)
    (hfind : reg.find?
      (fun x => decide (x.bd_addr = data.paired_device_link_keys_request.bd_addr)) = some r) :
    (callback_with_registry K env reg info
        .BTM_PAIRED_DEVICE_LINK_KEYS_REQUEST_EVT data).1.result = K.WICED_BT_SUCCESS
    ∧ (callback_with_registry K env reg info
        .BTM_PAIRED_DEVICE_LINK_KEYS_REQUEST_EVT
        data).1.p_event_data.paired_device_link_keys_request = r := by
  simp [callback_with_registry, btspk_control_management_callback,
    bt_hs_spk_control_link_key_get, hfind]

theorem link_keys_request_not_found (K : Platform) (env : Env) (reg : LinkKeyRegistry)
    (info : btspk_control_local_irk_info_t) (data : wiced_bt_management_evt_data_t)
    (hfind : reg.find?
      (fun x => decide (x.bd_addr = data.paired_device_link_keys_request.bd_addr)) = none) :
    (callback_with_registry K env reg info
        .BTM_PAIRED_DEVICE_LINK_KEYS_REQUEST_EVT data).1.result = K.WICED_BT_ERROR
    ∧ (callback_with_registry K env reg info
        .BTM_PAIRED_DEVICE_LINK_KEYS_REQUEST_EVT data).1.p_event_data = data := by
  simp [callback_with_registry, btspk_control_management_callback,
    bt_hs_spk_control_link_key_get, hfind]

/-- C12: with the link-key registry as the specification describes it, for
every peer `p`: a link-key update event carrying a record for `p`, followed by
any events among which no link-key update carries a record for `p`, followed
by a link-key request event for `p`, makes the callback return success with
the request overwritten by exactly the record of that update (so the last
update for `p` wins, whatever the registry held before); and starting from the
empty registry, after any events among which no link-key update carries a
record for `p`, a link-key request for `p` returns `WICED_BT_ERROR` and leaves
the event data as it was. -/
theorem link_key_update_then_request (K : Platform) :
    (∀ (env1 env2 : Env) (reg : LinkKeyRegistry) (info : btspk_control_local_irk_info_t)
        (data1 data2 : wiced_bt_management_evt_data_t) (ds : List Delivery),
        data2.paired_device_link_keys_request.bd_addr
          = data1.paired_device_link_keys_update.bd_addr →
        (∀ d ∈ ds, d.event = .BTM_PAIRED_DEVICE_LINK_KEYS_UPDATE_EVT →
          d.p_event_data.paired_device_link_keys_update.bd_addr
            ≠ data1.paired_device_link_keys_update.bd_addr) →
        (callback_with_registry K env2
            (deliver_all_with_registry K
              ((callback_with_registry K env1 reg info
                  .BTM_PAIRED_DEVICE_LINK_KEYS_UPDATE_EVT data1).1.local_irk_info,
               (callback_with_registry K env1 reg info
                  .BTM_PAIRED_DEVICE_LINK_KEYS_UPDATE_EVT data1).2) ds).2
            (deliver_all_with_registry K
              ((callback_with_registry K env1 reg info
                  .BTM_PAIRED_DEVICE_LINK_KEYS_UPDATE_EVT data1).1.local_irk_info,
               (callback_with_registry K env1 reg info
                  .BTM_PAIRED_DEVICE_LINK_KEYS_UPDATE_EVT data1).2) ds).1
            .BTM_PAIRED_DEVICE_LINK_KEYS_REQUEST_EVT data2).1.result = K.WICED_BT_SUCCESS
        ∧ (callback_with_registry K env2
            (deliver_all_with_registry K
              ((callback_with_registry K env1 reg info
                  .BTM_PAIRED_DEVICE_LINK_KEYS_UPDATE_EVT data1).1.local_irk_info,
               (callback_with_registry K env1 reg info
                  .BTM_PAIRED_DEVICE_LINK_KEYS_UPDATE_EVT data1).2) ds).2
            (deliver_all_with_registry K
              ((callback_with_registry K env1 reg info
                  .BTM_PAIRED_DEVICE_LINK_KEYS_UPDATE_EVT data1).1.local_irk_info,
               (callback_with_registry K env1 reg info
                  .BTM_PAIRED_DEVICE_LINK_KEYS_UPDATE_EVT data1).2) ds).1
            .BTM_PAIRED_DEVICE_LINK_KEYS_REQUEST_EVT
            data2).1.p_event_data.paired_device_link_keys_request
          = data1.paired_device_link_keys_update)
    ∧ (∀ (env : Env) (info : btspk_control_local_irk_info_t)
        (data : wiced_bt_management_evt_data_t) (ds : List Delivery),
        (∀ d ∈ ds, d.event = .BTM_PAIRED_DEVICE_LINK_KEYS_UPDATE_EVT →
          d.p_event_data.paired_device_link_keys_update.bd_addr
            ≠ data.paired_device_link_keys_request.bd_addr) →
        (callback_with_registry K env (deliver_all_with_registry K (info, []) ds).2
            (deliver_all_with_registry K (info, []) ds).1
            .BTM_PAIRED_DEVICE_LINK_KEYS_REQUEST_EVT data).1.result = K.WICED_BT_ERROR
        ∧ (callback_with_registry K env (deliver_all_with_registry K (info, []) ds).2
            (deliver_all_with_registry K (info, []) ds).1
            .BTM_PAIRED_DEVICE_LINK_KEYS_REQUEST_EVT data).1.p_event_data = data) := by
  constructor
  · intro env1 env2 reg info data1 data2 ds hpeer hno
    apply link_keys_request_found
    rw [hpeer, deliver_all_with_registry_find K _ ds _ hno]
    unfold callback_with_registry
    dsimp only
    rw [registry_after_callback, if_pos rfl]
    exact registry_find_after_update_same reg _
  · intro env info data ds hno
    apply link_keys_request_not_found
    rw [deliver_all_with_registry_find K _ ds _ hno]
    rfl

/-- C12 at concrete inputs: the record of `sample_data` for the peer
`1, ..., 6` is stored, a security request and an update for another peer
follow, and the request for `1, ..., 6` returns that record; from the empty
registry the same request returns the error code 8109. -/
theorem link_key_update_then_request_witness :
    (callback_with_registry sample_platform sample_env
        (deliver_all_with_registry sample_platform
          ((callback_with_registry sample_platform sample_env [] sample_cache_a
              .BTM_PAIRED_DEVICE_LINK_KEYS_UPDATE_EVT sample_data).1.local_irk_info,
           (callback_with_registry sample_platform sample_env [] sample_cache_a
              .BTM_PAIRED_DEVICE_LINK_KEYS_UPDATE_EVT sample_data).2)
          [{ env := sample_env, event := .BTM_SECURITY_REQUEST_EVT,
             p_event_data := sample_data },
           { env := sample_env, event := .BTM_PAIRED_DEVICE_LINK_KEYS_UPDATE_EVT,
             p_event_data := { sample_data with
               paired_device_link_keys_update :=
                 { bd_addr := [6, 5, 4, 3, 2, 1], key_data := [7, 7] } } }]).2
        (deliver_all_with_registry sample_platform
          ((callback_with_registry sample_platform sample_env [] sample_cache_a
              .BTM_PAIRED_DEVICE_LINK_KEYS_UPDATE_EVT sample_data).1.local_irk_info,
           (callback_with_registry sample_platform sample_env [] sample_cache_a
              .BTM_PAIRED_DEVICE_LINK_KEYS_UPDATE_EVT sample_data).2)
          [{ env := sample_env, event := .BTM_SECURITY_REQUEST_EVT,
             p_event_data := sample_data },
           { env := sample_env, event := .BTM_PAIRED_DEVICE_LINK_KEYS_UPDATE_EVT,
             p_event_data := { sample_data with
               paired_device_link_keys_update :=
                 { bd_addr := [6, 5, 4, 3, 2, 1], key_data := [7, 7] } } }]).1
        .BTM_PAIRED_DEVICE_LINK_KEYS_REQUEST_EVT
        sample_data).1.p_event_data.paired_device_link_keys_request
      = { bd_addr := [1, 2, 3, 4, 5, 6], key_data := [9, 9] }
    ∧ (callback_with_registry sample_platform sample_env
        (deliver_all_with_registry sample_platform (sample_cache_a, []) []).2
        (deliver_all_with_registry sample_platform (sample_cache_a, []) []).1
        .BTM_PAIRED_DEVICE_LINK_KEYS_REQUEST_EVT sample_data).1.result
      = sample_platform.WICED_BT_ERROR :=
  ⟨((link_key_update_then_request sample_platform).1 sample_env sample_env [] sample_cache_a
      sample_data sample_data _ rfl (by decide)).2,
   ((link_key_update_then_request sample_platform).2 sample_env sample_cache_a sample_data []
      (by decide)).1⟩

/-! ## Confirmation, result codes, and the initial cache -/

/-- C13: for every user-confirmation request event the callback returns
success and leaves the event data and the cache alone.  When the request is
just-works its only call is one positive confirmation reply for the requesting
peer, so nothing goes to the seeker; when it is not just-works its calls are,
in this order, the seeker's passkey setter with the numeric value of the event
and then the one positive confirmation reply for the requesting peer. -/
theorem user_confirmation_request_calls (K : Platform) (env : Env)
    (info : btspk_control_local_irk_info_t) (data : wiced_bt_management_evt_data_t) :
    (btspk_control_management_callback K env info
        .BTM_USER_CONFIRMATION_REQUEST_EVT data).result = K.WICED_BT_SUCCESS
    ∧ (data.user_confirmation_request.just_works = true →
      (btspk_control_management_callback K env info
          .BTM_USER_CONFIRMATION_REQUEST_EVT data).calls =
        [Call.wiced_bt_dev_confirm_req_reply K.WICED_BT_SUCCESS
          data.user_confirmation_request.bd_addr])
    ∧ (data.user_confirmation_request.just_works = false →
      (btspk_control_management_callback K env info
          .BTM_USER_CONFIRMATION_REQUEST_EVT data).calls =
        [Call.wiced_bt_gfps_provider_seeker_passkey_set
          data.user_confirmation_request.numeric_value,
         Call.wiced_bt_dev_confirm_req_reply K.WICED_BT_SUCCESS
          data.user_confirmation_request.bd_addr])
    ∧ (btspk_control_management_callback K env info
        .BTM_USER_CONFIRMATION_REQUEST_EVT data).p_event_data = data
    ∧ (btspk_control_management_callback K env info
        .BTM_USER_CONFIRMATION_REQUEST_EVT data).local_irk_info = info := by
  cases hjw : data.user_confirmation_request.just_works <;>
    simp [btspk_control_management_callback, hjw]

/-- C13 at concrete inputs: a numeric comparison with value 123456 from the
peer `1, ..., 6`, and the same request marked just-works. -/
theorem user_confirmation_request_calls_witness :
    (btspk_control_management_callback sample_platform sample_env sample_cache_a
        .BTM_USER_CONFIRMATION_REQUEST_EVT sample_data).calls =
      [Call.wiced_bt_gfps_provider_seeker_passkey_set 123456,
       Call.wiced_bt_dev_confirm_req_reply 0 [1, 2, 3, 4, 5, 6]]
    ∧ (btspk_control_management_callback sample_platform sample_env sample_cache_a
        .BTM_USER_CONFIRMATION_REQUEST_EVT
        { sample_data with user_confirmation_request :=
            { bd_addr := [1, 2, 3, 4, 5, 6], numeric_value := 123456,
              just_works := true } }).calls =
      [Call.wiced_bt_dev_confirm_req_reply 0 [1, 2, 3, 4, 5, 6]] :=
  ⟨(user_confirmation_request_calls sample_platform sample_env sample_cache_a
      sample_data).2.2.1 rfl,
   (user_confirmation_request_calls sample_platform sample_env sample_cache_a
      { sample_data with user_confirmation_request :=
          { bd_addr := [1, 2, 3, 4, 5, 6], numeric_value := 123456,
            just_works := true } }).2.1 rfl⟩

/-- C14: the three codes `WICED_BT_ERROR`, `WICED_BT_NO_RESOURCES` and
`WICED_BT_USE_DEFAULT_SECURITY` being distinct from `WICED_BT_SUCCESS`, the
callback returns a code other than success exactly when the event is a
security request while pairing is not allowed (`WICED_BT_ERROR`), a link-key
request whose lookup reports not found (`WICED_BT_ERROR`), an identity-key
request while the cache is not valid (`WICED_BT_NO_RESOURCES`), or a tag
without a case label (`WICED_BT_USE_DEFAULT_SECURITY`).  In particular the
stack-enabled event, the identity-key update event and the classic
I/O-capability response event return success whatever their data and whatever
the collaborators answer. -/
theorem callback_result_not_success_iff (K : Platform) (env : Env)
    (info : btspk_control_local_irk_info_t) (event : wiced_bt_management_evt_t)
    (data : wiced_bt_management_evt_data_t)
    (herr : K.WICED_BT_ERROR ≠ K.WICED_BT_SUCCESS)
    (hres : K.WICED_BT_NO_RESOURCES ≠ K.WICED_BT_SUCCESS)
    (hdef : K.WICED_BT_USE_DEFAULT_SECURITY ≠ K.WICED_BT_SUCCESS) :
    ((btspk_control_management_callback K env info event data).result ≠ K.WICED_BT_SUCCESS
      ↔ (event = .BTM_SECURITY_REQUEST_EVT ∧ env.pairing_allowed = false)
        ∨ (event = .BTM_PAIRED_DEVICE_LINK_KEYS_REQUEST_EVT
          ∧ (env.bt_hs_spk_control_link_key_get
              data.paired_device_link_keys_request).found = false)
        ∨ (event = .BTM_LOCAL_IDENTITY_KEYS_REQUEST_EVT
          ∧ info.result ≠ K.WICED_BT_SUCCESS)
        ∨ event ∉ case_labels)
    ∧ (event = .BTM_SECURITY_REQUEST_EVT → env.pairing_allowed = false →
      (btspk_control_management_callback K env info event data).result = K.WICED_BT_ERROR)
    ∧ (event = .BTM_PAIRED_DEVICE_LINK_KEYS_REQUEST_EVT →
      (env.bt_hs_spk_control_link_key_get data.paired_device_link_keys_request).found = false →
      (btspk_control_management_callback K env info event data).result = K.WICED_BT_ERROR)
    ∧ (event = .BTM_LOCAL_IDENTITY_KEYS_REQUEST_EVT → info.result ≠ K.WICED_BT_SUCCESS →
      (btspk_control_management_callback K env info event data).result
        = K.WICED_BT_NO_RESOURCES)
    ∧ (event ∉ case_labels →
      (btspk_control_management_callback K env info event data).result
        = K.WICED_BT_USE_DEFAULT_SECURITY)
    ∧ (btspk_control_management_callback K env info .BTM_ENABLED_EVT data).result
      = K.WICED_BT_SUCCESS
    ∧ (btspk_control_management_callback K env info
        .BTM_LOCAL_IDENTITY_KEYS_UPDATE_EVT data).result = K.WICED_BT_SUCCESS
    ∧ (btspk_control_management_callback K env info
        .BTM_PAIRING_IO_CAPABILITIES_BR_EDR_RESPONSE_EVT data).result
      = K.WICED_BT_SUCCESS := by
  refine ⟨?_, ?_, ?_, ?_, ?_, ?_, ?_, ?_⟩
  · cases event <;> simp only [btspk_control_management_callback] <;>
      (try split_ifs) <;> simp_all [case_labels]
  · rintro rfl hallow
    simp [btspk_control_management_callback, hallow]
  · rintro rfl hfound
    simp [btspk_control_management_callback, hfound]
  · rintro rfl hinvalid
    simp [btspk_control_management_callback, hinvalid]
  · intro hnolabel
    cases event <;> first
      | (exfalso; apply hnolabel; simp [case_labels]; done)
      | rfl
  · simp only [btspk_control_management_callback]
    split_ifs <;> rfl
  · rfl
  · rfl

/-- C14 at concrete inputs: the sample codes 8109, 8102 and 8120 differ from
0; a security request while pairing is not allowed returns a code other than
success, and a stack-enabled event that reports the failure status 8109
returns success. -/
theorem callback_result_not_success_iff_witness :
    sample_platform.WICED_BT_ERROR ≠ sample_platform.WICED_BT_SUCCESS
    ∧ (btspk_control_management_callback sample_platform
        { sample_env with pairing_allowed := false } sample_cache_a
        .BTM_SECURITY_REQUEST_EVT sample_data).result ≠ sample_platform.WICED_BT_SUCCESS
    ∧ (btspk_control_management_callback sample_platform sample_env sample_cache_a
        .BTM_ENABLED_EVT { sample_data with enabled := { status := 8109 } }).result
      = sample_platform.WICED_BT_SUCCESS :=
  ⟨by decide,
   (callback_result_not_success_iff sample_platform
      { sample_env with pairing_allowed := false } sample_cache_a
      .BTM_SECURITY_REQUEST_EVT sample_data (by decide) (by decide) (by decide)).1.mpr
        (Or.inl ⟨rfl, rfl⟩),
   (callback_result_not_success_iff sample_platform sample_env sample_cache_a
      .BTM_ENABLED_EVT { sample_data with enabled := { status := 8109 } }
      (by decide) (by decide) (by decide)).2.2.2.2.2.1⟩

/-- C15: in the zero-initialised state of `local_irk_info`, before
`btspk_control_local_irk_restore` has run, and given that `WICED_BT_SUCCESS` is
0, the cache counts as valid: the identity-key request event returns success
and hands out the all-zero key, and an identity-key update that carries the
all-zero key makes no call (so no persistent write) and leaves the cache as it
is, both as a call of `btspk_control_local_irk_update` and through the
callback. -/
theorem zero_initialised_cache_counts_as_valid (K : Platform) (env : Env)
    (data : wiced_bt_management_evt_data_t)
    (hzero : K.WICED_BT_SUCCESS = 0)
    (hbuf : data.local_identity_keys_request.local_key_data.length
      = K.BTM_SECURITY_LOCAL_KEY_DATA_LEN)
    (hupd : data.local_identity_keys_update.local_key_data
      = List.replicate K.BTM_SECURITY_LOCAL_KEY_DATA_LEN 0) :
    (local_irk_info_init K).result = K.WICED_BT_SUCCESS
    ∧ (btspk_control_management_callback K env (local_irk_info_init K)
        .BTM_LOCAL_IDENTITY_KEYS_REQUEST_EVT data).result = K.WICED_BT_SUCCESS
    ∧ (btspk_control_management_callback K env (local_irk_info_init K)
        .BTM_LOCAL_IDENTITY_KEYS_REQUEST_EVT
        data).p_event_data.local_identity_keys_request.local_key_data
      = List.replicate K.BTM_SECURITY_LOCAL_KEY_DATA_LEN 0
    ∧ btspk_control_local_irk_update K env (local_irk_info_init K)
        (List.replicate K.BTM_SECURITY_LOCAL_KEY_DATA_LEN 0) = (local_irk_info_init K, [])
    ∧ (btspk_control_management_callback K env (local_irk_info_init K)
        .BTM_LOCAL_IDENTITY_KEYS_UPDATE_EVT data).calls = []
    ∧ (btspk_control_management_callback K env (local_irk_info_init K)
        .BTM_LOCAL_IDENTITY_KEYS_UPDATE_EVT data).local_irk_info = local_irk_info_init K := by
  have hvalid : (local_irk_info_init K).result = K.WICED_BT_SUCCESS := by
    rw [hzero]
    rfl
  have hcache : (local_irk_info_init K).local_irk.local_key_data.length
      = K.BTM_SECURITY_LOCAL_KEY_DATA_LEN := by
    simp [local_irk_info_init]
  have hreq := identity_keys_request_eq K env (local_irk_info_init K) data hcache hbuf
  have hsame := local_irk_update_same K env (local_irk_info_init K)
    (List.replicate K.BTM_SECURITY_LOCAL_KEY_DATA_LEN 0) rfl
  rw [if_pos hvalid] at hreq
  refine ⟨hvalid, ?_, ?_, hsame, ?_, ?_⟩
  · rw [hreq]
  · rw [hreq]
    rfl
  · simp only [btspk_control_management_callback, hupd, hsame]
  · simp only [btspk_control_management_callback, hupd, hsame]

/-- C15 at a concrete input: with the sample constants (success code 0, key
length 16) the initial cache answers the identity-key request with success and
sixteen zero bytes. -/
theorem zero_initialised_cache_counts_as_valid_witness :
    sample_platform.WICED_BT_SUCCESS = 0
    ∧ (btspk_control_management_callback sample_platform sample_env
        (local_irk_info_init sample_platform) .BTM_LOCAL_IDENTITY_KEYS_REQUEST_EVT
        { sample_data with local_identity_keys_update :=
            { local_key_data := sample_key_zero } }).result = 0
    ∧ (btspk_control_management_callback sample_platform sample_env
        (local_irk_info_init sample_platform) .BTM_LOCAL_IDENTITY_KEYS_REQUEST_EVT
        { sample_data with local_identity_keys_update :=
            { local_key_data := sample_key_zero }
          }).p_event_data.local_identity_keys_request.local_key_data
      = sample_key_zero :=
  ⟨rfl,
   (zero_initialised_cache_counts_as_valid sample_platform sample_env
      { sample_data with local_identity_keys_update := { local_key_data := sample_key_zero } }
      rfl (by decide) rfl).2.1,
   (zero_initialised_cache_counts_as_valid sample_platform sample_env
      { sample_data with local_identity_keys_update := { local_key_data := sample_key_zero } }
      rfl (by decide) rfl).2.2.1⟩

end Btspk
